import Mathlib

/-!
Verification of the as-gastronomico backend (src/server.js, the PostgreSQL
variant, and src/server-local.js, the SQLite variant) against its
natural-language specification.

The two servers expose CRUD endpoints for cities (ciudades), sponsors
(patrocinadores, linked many-to-many to cities through the
patrocinadores_ciudades table) and restaurants (restaurantes), plus a
server-sent-events broadcast.  This file shallowly embeds the relational
store (with the foreign-key actions declared in createTables), the request
handlers of both variants, the read-side aggregation
(GROUP_CONCAT/STRING_AGG followed by the JavaScript truthiness guard and
split on comma) and the SSE fan-out, and proves or refutes the frozen
claims about them.
-/

/-- Model of the JavaScript `String.prototype.trim`: drop whitespace from
both ends.  Used wherever the handlers call `.trim()`. -/
def jsTrim (s : String) : String :=
  String.mk (((s.toList.dropWhile Char.isWhitespace).reverse.dropWhile Char.isWhitespace).reverse)

/-- Split a character list at every occurrence of `sep`; `acc` holds the
current (reversed) piece.  Models `String.prototype.split`. -/
def splitCharAux (sep : Char) : List Char → List Char → List String
  | [], acc => [String.mk acc.reverse]
  | c :: cs, acc =>
    if c = sep then String.mk acc.reverse :: splitCharAux sep cs []
    else splitCharAux sep cs (c :: acc)

/-- Split a string (given as a character list) at `sep`, as
`"a,b".split(",")` does. -/
def splitChar (sep : Char) (l : List Char) : List String :=
  splitCharAux sep l []

/-- Join a list of strings with a comma separator, as SQLite
`GROUP_CONCAT(x)` and PostgreSQL `STRING_AGG(x, ',')` do over the
aggregated rows. -/
def joinChars : List String → List Char
  | [] => []
  | [s] => s.toList
  | s :: s2 :: rest => s.toList ++ ',' :: joinChars (s2 :: rest)

/-- SQL string aggregation over a group: `NULL` (`none`) when the group is
empty, otherwise the comma-joined values. -/
def groupConcat : List String → Option String
  | [] => none
  | s :: rest => some (String.mk (joinChars (s :: rest)))

/-- Render one decimal digit (`d < 10`) as a character. -/
def decDigit (d : Nat) : Char := Char.ofNat (48 + d)

/-- Fuel-driven accumulation of the decimal digits of `n` in front of
`acc`. -/
def natDecAux : Nat → Nat → List Char → List Char
  | 0, _, acc => acc
  | fuel + 1, n, acc =>
    if n = 0 then acc else natDecAux fuel (n / 10) (decDigit (n % 10) :: acc)

/-- Decimal rendering of a natural number, modelling how the SQL layer
turns an integer id into text (`c.id::text`, `GROUP_CONCAT(c.id)`) and how
JavaScript `toString` renders it. -/
def natDec (n : Nat) : String :=
  if n = 0 then "0" else String.mk (natDecAux (n + 1) n [])

/-- True when the string has no JavaScript `\s` whitespace character. -/
def noWs (s : String) : Bool :=
  s.toList.all (fun c => !c.isWhitespace)

/-- Model of the handlers' email check
`/^[^\s@]+@[^\s@]+\.[^\s@]+$/.test(email)`: exactly one `@`, a nonempty
whitespace-free local part, and a whitespace-free domain that can be cut at
some dot into two nonempty halves — i.e. the domain has a dot that is
neither its first nor its last character (the halves themselves may contain
further dots, as the regex classes admit `.`). -/
def validEmail (s : String) : Bool :=
  match splitChar '@' s.toList with
  | [l, r] =>
    decide (l ≠ "") && noWs l && noWs r &&
      ((r.toList.drop 1).dropLast.contains '.')
  | _ => false

/-- Lower-case a string character by character, modelling the
case-insensitive comparison of SQLite `LIKE` / PostgreSQL `ILIKE`. -/
def lowerStr (s : String) : String :=
  String.mk (s.toList.map Char.toLower)

/-- Does `needle` occur at the head of `hay`? -/
def matchesAt : List Char → List Char → Bool
  | _, [] => true
  | [], _ :: _ => false
  | a :: as, b :: bs => a == b && matchesAt as bs

/-- Does `needle` occur anywhere inside `hay`? -/
def hasSub : List Char → List Char → Bool
  | [], needle => needle.isEmpty
  | a :: rest, needle => matchesAt (a :: rest) needle || hasSub rest needle

/-- Case-insensitive substring match, modelling `field LIKE '%q%'` /
`field ILIKE '%q%'`. -/
def likeMatch (field q : String) : Bool :=
  hasSub (lowerStr field).toList (lowerStr q).toList

/-- `LIKE` over a nullable column: SQL `NULL LIKE x` is not true. -/
def optLike (field : Option String) (q : String) : Bool :=
  match field with
  | none => false
  | some s => likeMatch s q

/-- Model of the JavaScript post-processing
`row.x ? row.x.split(',') : []` applied to the nullable aggregate column:
a JSON array whose entries model the nullable JSON strings. -/
def jsSplitField (o : Option String) : List (Option String) :=
  match o with
  | none => []
  | some s => if s = "" then [] else (splitChar ',' s.toList).map some

/-- A row of the `ciudades` table (id, nombre; `nombre` is UNIQUE). -/
structure Ciudad where
  id : Nat
  nombre : String
deriving DecidableEq

/-- A row of the `patrocinadores` table (`email` is UNIQUE); only the
columns the claims touch are modelled. -/
structure Patrocinador where
  id : Nat
  nombre : String
  email : String
  representante : Option String
deriving DecidableEq

/-- A row of the `patrocinadores_ciudades` association table, with its
UNIQUE (patrocinador_id, ciudad_id) pair. -/
structure Asociacion where
  patrocinador_id : Nat
  ciudad_id : Nat
deriving DecidableEq

/-- A row of the `restaurantes` table; only the columns the claims touch
are modelled (`ciudad_id` is the nullable foreign key declared
ON DELETE SET NULL). -/
structure Restaurante where
  id : Nat
  nombre_oficial : String
  nombre_mostrar : String
  representante : Option String
  email : Option String
  ciudad_id : Option Nat
deriving DecidableEq

/-- The relational store created by `createTables`. -/
structure DB where
  ciudades : List Ciudad
  patrocinadores : List Patrocinador
  asociaciones : List Asociacion
  restaurantes : List Restaurante
deriving DecidableEq

def cityExists (db : DB) (cid : Nat) : Bool :=
  db.ciudades.any (fun c => c.id == cid)

def patroExists (db : DB) (pid : Nat) : Bool :=
  db.patrocinadores.any (fun p => p.id == pid)

def restExists (db : DB) (rid : Nat) : Bool :=
  db.restaurantes.any (fun r => r.id == rid)

/-- The ciudad ids currently associated to a sponsor, in table order. -/
def assocCityIds (db : DB) (pid : Nat) : List Nat :=
  (db.asociaciones.filter (fun a => a.patrocinador_id == pid)).map (fun a => a.ciudad_id)

def nextCiudadId (db : DB) : Nat :=
  db.ciudades.foldl (fun m c => max m c.id) 0 + 1

def nextPatroId (db : DB) : Nat :=
  db.patrocinadores.foldl (fun m p => max m p.id) 0 + 1

def nextRestId (db : DB) : Nat :=
  db.restaurantes.foldl (fun m r => max m r.id) 0 + 1

/-- Errors raised by the store on a single statement. -/
inductive DbErr where
  | unique
  | fk
deriving DecidableEq

/-- One `INSERT INTO patrocinadores_ciudades (patrocinador_id, ciudad_id)
VALUES (?, ?)`: fails when a declared foreign key does not resolve or when
the UNIQUE (patrocinador_id, ciudad_id) pair already exists. -/
def insertAssocRow (db : DB) (pid cid : Nat) : Except DbErr DB :=
  if patroExists db pid then
    if cityExists db cid then
      if db.asociaciones.any (fun a => a.patrocinador_id == pid && a.ciudad_id == cid) then
        .error .unique
      else
        .ok { db with asociaciones := db.asociaciones ++ [⟨pid, cid⟩] }
    else .error .fk
  else .error .fk

/-- The sequential insert loop of server.js (`for (const ciudadId of
ciudades_ids) { await client.query(INSERT ...) }`): stops at the first
failing insert. -/
def insertAssocs (pid : Nat) : DB → List Nat → Except DbErr DB
  | db, [] => .ok db
  | db, c :: cs =>
    match insertAssocRow db pid c with
    | .error e => .error e
    | .ok db1 => insertAssocs pid db1 cs

/-- The untransacted insert batch of server-local.js (`Promise.all` over
independent autocommitted `db.run` inserts): every insert is attempted,
each successful one persists, and the flag records whether any failed. -/
def insertAssocsNoTx (pid : Nat) : DB → List Nat → Bool × DB
  | db, [] => (false, db)
  | db, c :: cs =>
    match insertAssocRow db pid c with
    | .error _ => (true, (insertAssocsNoTx pid db cs).2)
    | .ok db1 =>
      let r := insertAssocsNoTx pid db1 cs
      (r.1, r.2)

/-- `DELETE FROM patrocinadores_ciudades WHERE patrocinador_id = ?`. -/
def deleteAssocsOf (db : DB) (pid : Nat) : DB :=
  { db with asociaciones := db.asociaciones.filter (fun a => !(a.patrocinador_id == pid)) }

/-- The `UPDATE patrocinadores SET ... WHERE id = ?` row update. -/
def updatePatroRow (db : DB) (pid : Nat) (nombre email : String)
    (representante : Option String) : DB :=
  { db with
    patrocinadores := db.patrocinadores.map (fun p =>
      if p.id == pid then
        { p with nombre := nombre, email := email, representante := representante }
      else p) }

/-- The `LEFT JOIN patrocinadores_ciudades ... LEFT JOIN ciudades` rows of
one sponsor group: each association row contributes its matching ciudad
row (a dangling association contributes the all-NULL ciudad side, which
the string aggregation skips). -/
def ciudadesOf (db : DB) (pid : Nat) : List Ciudad :=
  (db.asociaciones.filter (fun a => a.patrocinador_id == pid)).filterMap
    (fun a => db.ciudades.find? (fun c => c.id == a.ciudad_id))

/-- The denormalized sponsor view the read endpoints return:
`p.*` plus `ciudades_nombres` and `ciudades_ids`, each produced by string
aggregation, the JavaScript truthiness guard, and a split on comma.  The
list entries are nullable JSON strings. -/
structure PatrocinadorView where
  id : Nat
  nombre : String
  email : String
  representante : Option String
  ciudades_nombres : List (Option String)
  ciudades_ids : List (Option String)
deriving DecidableEq

def mkPatrocinadorView (db : DB) (p : Patrocinador) : PatrocinadorView :=
  let cs := ciudadesOf db p.id
  { id := p.id
  , nombre := p.nombre
  , email := p.email
  , representante := p.representante
  , ciudades_nombres := jsSplitField (groupConcat (cs.map (fun c => c.nombre)))
  , ciudades_ids := jsSplitField (groupConcat (cs.map (fun c => natDec c.id))) }

/-- The `WHERE p.id = ?` variant of the aggregation query used after a
sponsor create or update. -/
def mkViewById (db : DB) (pid : Nat) : Option PatrocinadorView :=
  (db.patrocinadores.find? (fun p => p.id == pid)).map (mkPatrocinadorView db)

/-- The denormalized restaurant view (`r.*` plus the joined
`ciudad_nombre`). -/
structure RestauranteView where
  id : Nat
  nombre_oficial : String
  nombre_mostrar : String
  representante : Option String
  email : Option String
  ciudad_id : Option Nat
  ciudad_nombre : Option String
deriving DecidableEq

def mkRestauranteView (db : DB) (r : Restaurante) : RestauranteView :=
  { id := r.id
  , nombre_oficial := r.nombre_oficial
  , nombre_mostrar := r.nombre_mostrar
  , representante := r.representante
  , email := r.email
  , ciudad_id := r.ciudad_id
  , ciudad_nombre :=
      r.ciudad_id.bind (fun c => (db.ciudades.find? (fun y => y.id == c)).map (fun y => y.nombre)) }

/-- Payload of a server-sent event, as JSON-serialized by
`sendUpdateToAllClients`. -/
inductive Payload where
  | ciudad (c : Ciudad)
  | patro (v : PatrocinadorView)
  | rest (v : RestauranteView)
  | idMessage (id : Nat) (message : String)
deriving DecidableEq

/-- A broadcast event: the `type` string and its data payload. -/
structure Event where
  type : String
  data : Payload
deriving DecidableEq

/-- An HTTP response: either a success status with a JSON body, or an
error status with an `error` message. -/
inductive Resp (α : Type) where
  | ok (code : Nat) (body : α)
  | err (code : Nat) (msg : String)
deriving DecidableEq

def Resp.isOk {α : Type} : Resp α → Bool
  | .ok _ _ => true
  | .err _ _ => false

def Resp.status {α : Type} : Resp α → Nat
  | .ok c _ => c
  | .err c _ => c

/-- Outcome of running a handler: the resulting store, the HTTP response,
and the events it pushed through `sendUpdateToAllClients`. -/
structure HRes (α : Type) where
  db : DB
  resp : Resp α
  events : List Event
deriving DecidableEq

/-- POST /api/ciudades: validate the name, insert (UNIQUE nombre), reread
the created row, publish `ciudad_agregada`, answer 201. -/
def postCiudad (db : DB) (nombre : String) : HRes Ciudad :=
  if jsTrim nombre = "" then
    ⟨db, .err 400 "El nombre de la ciudad es requerido", []⟩
  else if db.ciudades.any (fun c => c.nombre == jsTrim nombre) then
    ⟨db, .err 400 "Ya existe una ciudad con ese nombre", []⟩
  else
    let c : Ciudad := ⟨nextCiudadId db, jsTrim nombre⟩
    ⟨{ db with ciudades := db.ciudades ++ [c] }, .ok 201 c,
      [⟨"ciudad_agregada", .ciudad c⟩]⟩

/-- The `UPDATE ciudades SET nombre = ? WHERE id = ?` row update. -/
def updateCiudadRow (db : DB) (cid : Nat) (nombre : String) : DB :=
  { db with ciudades := db.ciudades.map (fun c =>
      if c.id == cid then { c with nombre := nombre } else c) }

/-- PUT /api/ciudades/:id: validate, update (UNIQUE nombre, 404 when no
row was touched), reread, publish `ciudad_actualizada`, answer 200. -/
def putCiudad (db : DB) (cid : Nat) (nombre : String) : HRes Ciudad :=
  if jsTrim nombre = "" then
    ⟨db, .err 400 "El nombre de la ciudad es requerido", []⟩
  else if cityExists db cid = false then
    ⟨db, .err 404 "Ciudad no encontrada", []⟩
  else if db.ciudades.any (fun c => c.nombre == jsTrim nombre && !(c.id == cid)) then
    ⟨db, .err 400 "Ya existe una ciudad con ese nombre", []⟩
  else
    let db2 := updateCiudadRow db cid (jsTrim nombre)
    match db2.ciudades.find? (fun c => c.id == cid) with
    | some c => ⟨db2, .ok 200 c, [⟨"ciudad_actualizada", .ciudad c⟩]⟩
    | none => ⟨db2, .err 500 "Error interno del servidor", []⟩

/-- DELETE /api/ciudades/:id: delete the row (404 when absent); the
declared schema actions fire: association rows referencing the ciudad are
cascade-deleted and restaurant `ciudad_id` references are set to NULL.
Publishes `ciudad_eliminada` with an id/message payload. -/
def deleteCiudad (db : DB) (cid : Nat) : HRes String :=
  if cityExists db cid then
    let db2 : DB :=
      { ciudades := db.ciudades.filter (fun c => !(c.id == cid))
      , patrocinadores := db.patrocinadores
      , asociaciones := db.asociaciones.filter (fun a => !(a.ciudad_id == cid))
      , restaurantes := db.restaurantes.map (fun r =>
          if r.ciudad_id = some cid then { r with ciudad_id := none } else r) }
    ⟨db2, .ok 200 "Ciudad eliminada correctamente",
      [⟨"ciudad_eliminada", .idMessage cid "Ciudad eliminada"⟩]⟩
  else ⟨db, .err 404 "Ciudad no encontrada", []⟩

/-- GET /api/ciudades/buscar: `if (!q) return res.json([])` before any
store access; otherwise a LIKE query.  The Bool records whether the store
was queried. -/
def buscarCiudades (db : DB) (q : Option String) : Bool × List Ciudad :=
  match q with
  | none => (false, [])
  | some s =>
    if s = "" then (false, [])
    else (true, db.ciudades.filter (fun c => likeMatch c.nombre s))

/-- GET /api/patrocinadores: the aggregation query over every sponsor. -/
def getPatrocinadores (db : DB) : List PatrocinadorView :=
  db.patrocinadores.map (mkPatrocinadorView db)

/-- GET /api/patrocinadores/buscar: empty-query guard, then the filtered
aggregation query. -/
def buscarPatrocinadores (db : DB) (q : Option String) : Bool × List PatrocinadorView :=
  match q with
  | none => (false, [])
  | some s =>
    if s = "" then (false, [])
    else
      (true, (db.patrocinadores.filter (fun p =>
        likeMatch p.nombre s || likeMatch p.email s || optLike p.representante s)).map
        (mkPatrocinadorView db))

/-- Request body of POST/PUT /api/patrocinadores: absent strings are
modelled as `""` (both are falsy to the `!nombre || !email` check). -/
structure PatroBody where
  nombre : String
  email : String
  representante : Option String
  ciudades_ids : Option (List Nat)
deriving DecidableEq

/-- JavaScript `field?.trim() || null`. -/
def optTrimOrNull (o : Option String) : Option String :=
  match o with
  | none => none
  | some s => if jsTrim s = "" then none else some (jsTrim s)

def errCode : DbErr → Nat
  | .unique => 400
  | .fk => 500

def errText : DbErr → String
  | .unique => "Ya existe un patrocinador con ese email"
  | .fk => "Error interno del servidor"

/-- Tail of server.js POST/PUT /api/patrocinadores: run the association
inserts inside the open transaction; on any failure ROLLBACK to the
pre-call store; on success COMMIT and reread the sponsor through the
aggregation query. -/
def finishPatrocinadorTx (dbOrig db2 : DB) (pid okCode : Nat) (cids : List Nat) :
    HRes PatrocinadorView :=
  match insertAssocs pid db2 cids with
  | .error e => ⟨dbOrig, .err (errCode e) (errText e), []⟩
  | .ok db3 =>
    match mkViewById db3 pid with
    | some v => ⟨db3, .ok okCode v, []⟩
    | none => ⟨db3, .err 500 "Error interno del servidor", []⟩

/-- The `else` branch of the local handlers when `ciudades_ids` is absent
or empty: reread the bare sponsor row and answer with empty city lists. -/
def emptyCityRespLocal (db2 : DB) (pid okCode : Nat) : HRes PatrocinadorView :=
  match db2.patrocinadores.find? (fun p => p.id == pid) with
  | some p => ⟨db2, .ok okCode ⟨p.id, p.nombre, p.email, p.representante, [], []⟩, []⟩
  | none => ⟨db2, .err 500 "Error interno del servidor", []⟩

/-- Tail of server-local.js POST/PUT /api/patrocinadores: no transaction.
When `ciudades_ids` is absent or empty the bare row is returned; otherwise
every insert is attempted (autocommitted), and any failure answers 500
while keeping whatever already persisted. -/
def finishPatrocinadorLocal (db2 : DB) (pid okCode : Nat) (cids : Option (List Nat)) :
    HRes PatrocinadorView :=
  match cids with
  | none => emptyCityRespLocal db2 pid okCode
  | some [] => emptyCityRespLocal db2 pid okCode
  | some (c :: cs) =>
    let r := insertAssocsNoTx pid db2 (c :: cs)
    if r.1 then ⟨r.2, .err 500 "Error interno del servidor", []⟩
    else
      match mkViewById r.2 pid with
      | some v => ⟨r.2, .ok okCode v, []⟩
      | none => ⟨r.2, .err 500 "Error interno del servidor", []⟩

/-- POST /api/patrocinadores in server.js: validation, transactional
insert of the sponsor row (UNIQUE email) and its association rows, then
the aggregation reread.  No event is published. -/
def postPatrocinadorServer (db : DB) (b : PatroBody) : HRes PatrocinadorView :=
  if b.nombre = "" ∨ b.email = "" then
    ⟨db, .err 400 "El nombre y email son requeridos", []⟩
  else if validEmail b.email = false then
    ⟨db, .err 400 "El formato del email no es valido", []⟩
  else if db.patrocinadores.any (fun p => p.email == jsTrim b.email) then
    ⟨db, .err 400 "Ya existe un patrocinador con ese email", []⟩
  else
    let pid := nextPatroId db
    let db1 : DB := { db with patrocinadores := db.patrocinadores ++
      [⟨pid, jsTrim b.nombre, jsTrim b.email, optTrimOrNull b.representante⟩] }
    finishPatrocinadorTx db db1 pid 201 (b.ciudades_ids.getD [])

/-- POST /api/patrocinadores in server-local.js: same validation and row
insert, but the association inserts are not transacted.  No event is
published. -/
def postPatrocinadorLocal (db : DB) (b : PatroBody) : HRes PatrocinadorView :=
  if b.nombre = "" ∨ b.email = "" then
    ⟨db, .err 400 "El nombre y email son requeridos", []⟩
  else if validEmail b.email = false then
    ⟨db, .err 400 "El formato del email no es valido", []⟩
  else if db.patrocinadores.any (fun p => p.email == jsTrim b.email) then
    ⟨db, .err 400 "Ya existe un patrocinador con ese email", []⟩
  else
    let pid := nextPatroId db
    let db1 : DB := { db with patrocinadores := db.patrocinadores ++
      [⟨pid, jsTrim b.nombre, jsTrim b.email, optTrimOrNull b.representante⟩] }
    finishPatrocinadorLocal db1 pid 201 b.ciudades_ids

/-- PUT /api/patrocinadores/:id in server.js: validation, transactional
row update (404 when the id is absent, UNIQUE email), delete-all then
reinsert of the association rows, ROLLBACK of everything on failure.  No
event is published. -/
def putPatrocinadorServer (db : DB) (pid : Nat) (b : PatroBody) : HRes PatrocinadorView :=
  if b.nombre = "" ∨ b.email = "" then
    ⟨db, .err 400 "El nombre y email son requeridos", []⟩
  else if validEmail b.email = false then
    ⟨db, .err 400 "El formato del email no es valido", []⟩
  else if patroExists db pid = false then
    ⟨db, .err 404 "Patrocinador no encontrado", []⟩
  else if db.patrocinadores.any (fun p => p.email == jsTrim b.email && !(p.id == pid)) then
    ⟨db, .err 400 "Ya existe un patrocinador con ese email", []⟩
  else
    let db2 := deleteAssocsOf
      (updatePatroRow db pid (jsTrim b.nombre) (jsTrim b.email) (optTrimOrNull b.representante)) pid
    finishPatrocinadorTx db db2 pid 200 (b.ciudades_ids.getD [])

/-- PUT /api/patrocinadores/:id in server-local.js: same steps but every
statement autocommits: the row update and the association delete persist
even when a later insert fails.  No event is published. -/
def putPatrocinadorLocal (db : DB) (pid : Nat) (b : PatroBody) : HRes PatrocinadorView :=
  if b.nombre = "" ∨ b.email = "" then
    ⟨db, .err 400 "El nombre y email son requeridos", []⟩
  else if validEmail b.email = false then
    ⟨db, .err 400 "El formato del email no es valido", []⟩
  else if patroExists db pid = false then
    ⟨db, .err 404 "Patrocinador no encontrado", []⟩
  else if db.patrocinadores.any (fun p => p.email == jsTrim b.email && !(p.id == pid)) then
    ⟨db, .err 400 "Ya existe un patrocinador con ese email", []⟩
  else
    let db2 := deleteAssocsOf
      (updatePatroRow db pid (jsTrim b.nombre) (jsTrim b.email) (optTrimOrNull b.representante)) pid
    finishPatrocinadorLocal db2 pid 200 b.ciudades_ids

/-- DELETE /api/patrocinadores/:id: delete the row (404 when absent); the
association rows cascade.  Publishes `patrocinador_eliminado`. -/
def deletePatrocinador (db : DB) (pid : Nat) : HRes String :=
  if patroExists db pid then
    ⟨{ db with
        patrocinadores := db.patrocinadores.filter (fun p => !(p.id == pid))
      , asociaciones := db.asociaciones.filter (fun a => !(a.patrocinador_id == pid)) }
    , .ok 200 "Patrocinador eliminado correctamente"
    , [⟨"patrocinador_eliminado", .idMessage pid "Patrocinador eliminado"⟩]⟩
  else ⟨db, .err 404 "Patrocinador no encontrado", []⟩

/-- Request body of POST/PUT /api/restaurantes: only the modelled columns;
absent required strings are `""`. -/
structure RestBody where
  nombre_oficial : String
  nombre_mostrar : String
  representante : Option String
  email : Option String
  ciudad_id : Option Nat
deriving DecidableEq

/-- The INSERT INTO restaurantes plus the reread with the joined ciudad
and the `restaurante_agregado` event. -/
def insertRestaurante (db : DB) (b : RestBody) : HRes RestauranteView :=
  let r : Restaurante :=
    { id := nextRestId db
    , nombre_oficial := jsTrim b.nombre_oficial
    , nombre_mostrar := jsTrim b.nombre_mostrar
    , representante := optTrimOrNull b.representante
    , email := optTrimOrNull b.email
    , ciudad_id := b.ciudad_id }
  let db2 : DB := { db with restaurantes := db.restaurantes ++ [r] }
  let v := mkRestauranteView db2 r
  ⟨db2, .ok 201 v, [⟨"restaurante_agregado", .rest v⟩]⟩

/-- POST /api/restaurantes: only `nombre_oficial` and `nombre_mostrar` are
required; the email is stored untouched by any format or uniqueness check;
a non-resolving `ciudad_id` foreign key fails the insert. -/
def postRestaurante (db : DB) (b : RestBody) : HRes RestauranteView :=
  if b.nombre_oficial = "" ∨ b.nombre_mostrar = "" then
    ⟨db, .err 400 "El nombre oficial y nombre para mostrar son requeridos", []⟩
  else
    match b.ciudad_id with
    | none => insertRestaurante db b
    | some c =>
      if cityExists db c then insertRestaurante db b
      else ⟨db, .err 500 "Error interno del servidor", []⟩

/-- The UPDATE restaurantes row rewrite. -/
def updateRestRow (db : DB) (rid : Nat) (b : RestBody) : DB :=
  { db with restaurantes := db.restaurantes.map (fun r =>
      if r.id == rid then
        { r with
          nombre_oficial := jsTrim b.nombre_oficial
        , nombre_mostrar := jsTrim b.nombre_mostrar
        , representante := optTrimOrNull b.representante
        , email := optTrimOrNull b.email
        , ciudad_id := b.ciudad_id }
      else r) }

/-- PUT /api/restaurantes/:id: validation, update (404 when the id is
absent), reread with the joined ciudad, `restaurante_actualizado`
event. -/
def putRestaurante (db : DB) (rid : Nat) (b : RestBody) : HRes RestauranteView :=
  if b.nombre_oficial = "" ∨ b.nombre_mostrar = "" then
    ⟨db, .err 400 "El nombre oficial y nombre para mostrar son requeridos", []⟩
  else if restExists db rid = false then
    ⟨db, .err 404 "Restaurante no encontrado", []⟩
  else
    match b.ciudad_id with
    | some c =>
      if cityExists db c then
        let db2 := updateRestRow db rid b
        match db2.restaurantes.find? (fun r => r.id == rid) with
        | some r =>
          ⟨db2, .ok 200 (mkRestauranteView db2 r),
            [⟨"restaurante_actualizado", .rest (mkRestauranteView db2 r)⟩]⟩
        | none => ⟨db2, .err 500 "Error interno del servidor", []⟩
      else ⟨db, .err 500 "Error interno del servidor", []⟩
    | none =>
      let db2 := updateRestRow db rid b
      match db2.restaurantes.find? (fun r => r.id == rid) with
      | some r =>
        ⟨db2, .ok 200 (mkRestauranteView db2 r),
          [⟨"restaurante_actualizado", .rest (mkRestauranteView db2 r)⟩]⟩
      | none => ⟨db2, .err 500 "Error interno del servidor", []⟩

/-- DELETE /api/restaurantes/:id: delete the row (404 when absent),
publish `restaurante_eliminado`. -/
def deleteRestaurante (db : DB) (rid : Nat) : HRes String :=
  if restExists db rid then
    ⟨{ db with restaurantes := db.restaurantes.filter (fun r => !(r.id == rid)) }
    , .ok 200 "Restaurante eliminado correctamente"
    , [⟨"restaurante_eliminado", .idMessage rid "Restaurante eliminado"⟩]⟩
  else ⟨db, .err 404 "Restaurante no encontrado", []⟩

/-- GET /api/restaurantes/buscar: empty-query guard, then the LIKE
query over four columns. -/
def buscarRestaurantes (db : DB) (q : Option String) : Bool × List RestauranteView :=
  match q with
  | none => (false, [])
  | some s =>
    if s = "" then (false, [])
    else
      (true, (db.restaurantes.filter (fun r =>
        likeMatch r.nombre_oficial s || likeMatch r.nombre_mostrar s ||
          optLike r.representante s || optLike r.email s)).map (mkRestauranteView db))

/-- One SSE subscriber: its id and whether a write to its transport
currently succeeds.  Node `res.write` reports failure through its return
value (and asynchronous error events); it does not throw into the caller. -/
structure SSEClient where
  id : Nat
  writeOk : Bool
deriving DecidableEq

/-- The broadcast loop `clients.forEach(client => client.res.write(...))`:
one write is attempted per subscriber, in list order; each write's success
flag is the return value of `res.write`, which the code ignores. -/
def sendUpdateToAllClients (clients : List SSEClient) (_message : String) : List (Nat × Bool) :=
  clients.foldl (fun acc c => acc ++ [(c.id, c.writeOk)]) []

/-- A concrete store used by the witnesses: two cities, one sponsor
associated to city 1, one sponsor with no associations, one restaurant in
city 1. -/
def dbW : DB :=
  { ciudades := [⟨1, "Lima"⟩, ⟨2, "Cusco"⟩]
  , patrocinadores := [⟨7, "Acme", "a@a.com", none⟩, ⟨8, "Beta", "b@b.com", none⟩]
  , asociaciones := [⟨7, 1⟩]
  , restaurantes := [⟨3, "Resto", "R", none, some "r@r.com", some 1⟩] }

/-- A valid sponsor-update body keeping the association to city 1. -/
def bW : PatroBody := ⟨"Acme", "a@a.com", none, some [1]⟩

/-- A body whose association step must fail: city 5 does not exist. -/
def bBadCity : PatroBody := ⟨"Acme", "a@a.com", none, some [5]⟩

/-- A body with a duplicated ciudad id. -/
def bDup : PatroBody := ⟨"Acme", "a@a.com", none, some [1, 1]⟩

/-- A body with an empty ciudad id list. -/
def bEmpty : PatroBody := ⟨"Acme", "a@a.com", none, some []⟩

/-- A creation body (fresh email) with a duplicated ciudad id. -/
def bPostDup : PatroBody := ⟨"Gamma", "g@g.com", none, some [1, 1]⟩

/-- A creation body (fresh email) with an empty ciudad id list. -/
def bPostEmpty : PatroBody := ⟨"Gamma", "g@g.com", none, some []⟩

/-- A body associating the sponsor to cities 2 and 1. -/
def bW2 : PatroBody := ⟨"Acme", "a@a.com", none, some [2, 1]⟩


theorem mk_toList (s : String) : String.mk s.toList = s := rfl

theorem toList_eq_nil_iff (s : String) : s.toList = [] ↔ s = "" := by
  constructor
  · intro h
    have h2 : String.mk s.toList = String.mk [] := by rw [h]
    simpa [mk_toList] using h2
  · intro h
    subst h
    rfl

theorem splitCharAux_nosep (sep : Char) :
    ∀ (xs ys acc : List Char), (∀ c ∈ xs, c ≠ sep) →
      splitCharAux sep (xs ++ ys) acc = splitCharAux sep ys (xs.reverse ++ acc) := by
  intro xs
  induction xs with
  | nil => intro ys acc _; simp
  | cons x xs ih =>
    intro ys acc h
    have hx : x ≠ sep := h x (by simp)
    have hxs : ∀ c ∈ xs, c ≠ sep := fun c hc => h c (by simp [hc])
    simp only [List.cons_append, splitCharAux, if_neg hx, List.append_eq]
    rw [ih ys (x :: acc) hxs]
    simp

theorem splitChar_joinChars :
    ∀ (l : List String), l ≠ [] → (∀ s ∈ l, ∀ c ∈ s.toList, c ≠ ',') →
      splitChar ',' (joinChars l) = l := by
  intro l
  induction l with
  | nil => intro h; exact absurd rfl h
  | cons s tail ih =>
    intro _ h
    have hs : ∀ c ∈ s.toList, c ≠ ',' := h s (by simp)
    cases tail with
    | nil =>
      show splitCharAux ',' (joinChars [s]) [] = [s]
      have : joinChars [s] = s.toList ++ [] := by simp [joinChars]
      rw [this, splitCharAux_nosep ',' s.toList [] [] hs]
      simp [splitCharAux, mk_toList]
    | cons s2 rest =>
      have htail : ∀ x ∈ s2 :: rest, ∀ c ∈ x.toList, c ≠ ',' :=
        fun x hx => h x (by simp [hx])
      show splitCharAux ',' (joinChars (s :: s2 :: rest)) [] = s :: s2 :: rest
      have hjoin : joinChars (s :: s2 :: rest) = s.toList ++ ',' :: joinChars (s2 :: rest) := by
        simp [joinChars]
      rw [hjoin, splitCharAux_nosep ',' s.toList (',' :: joinChars (s2 :: rest)) [] hs]
      simp only [splitCharAux, if_pos rfl, List.append_nil, List.reverse_reverse, mk_toList]
      exact congrArg (s :: ·) (ih (by simp) htail)

theorem digit_ne_comma : ∀ d, d < 10 → decDigit d ≠ ',' := by decide

theorem natDecAux_mem :
    ∀ (fuel n : Nat) (acc : List Char) (c : Char), c ∈ natDecAux fuel n acc →
      c ∈ acc ∨ ∃ d, d < 10 ∧ c = decDigit d := by
  intro fuel
  induction fuel with
  | zero => intro n acc c hc; exact Or.inl hc
  | succ fuel ih =>
    intro n acc c hc
    by_cases hn : n = 0
    · simp only [natDecAux, if_pos hn] at hc
      exact Or.inl hc
    · simp only [natDecAux, if_neg hn] at hc
      rcases ih (n / 10) (decDigit (n % 10) :: acc) c hc with hmem | hdig
      · rcases List.mem_cons.mp hmem with heq | hacc
        · exact Or.inr ⟨n % 10, Nat.mod_lt _ (by omega), heq⟩
        · exact Or.inl hacc
      · exact Or.inr hdig

theorem natDecAux_length :
    ∀ (fuel n : Nat) (acc : List Char), acc.length ≤ (natDecAux fuel n acc).length := by
  intro fuel
  induction fuel with
  | zero => intro n acc; simp [natDecAux]
  | succ fuel ih =>
    intro n acc
    by_cases hn : n = 0
    · simp [natDecAux, hn]
    · simp only [natDecAux, if_neg hn]
      calc acc.length ≤ (decDigit (n % 10) :: acc).length := by simp
        _ ≤ _ := ih (n / 10) (decDigit (n % 10) :: acc)

theorem natDec_ne_empty (n : Nat) : natDec n ≠ "" := by
  by_cases hn : n = 0
  · subst hn; decide
  · simp only [natDec, if_neg hn]
    intro h
    have hlist : natDecAux (n + 1) n [] = [] := by
      have := congrArg String.toList h
      simpa using this
    have hlen : (1 : Nat) ≤ (natDecAux n (n / 10) [decDigit (n % 10)]).length := by
      simpa using natDecAux_length n (n / 10) [decDigit (n % 10)]
    have hstep : natDecAux (n + 1) n [] = natDecAux n (n / 10) [decDigit (n % 10)] := by
      simp [natDecAux, hn]
    rw [hstep] at hlist
    rw [hlist] at hlen
    simp at hlen

theorem natDec_no_comma (n : Nat) : ∀ c ∈ (natDec n).toList, c ≠ ',' := by
  by_cases hn : n = 0
  · subst hn; decide
  · intro c hc
    simp only [natDec, if_neg hn] at hc
    have hc2 : c ∈ natDecAux (n + 1) n [] := hc
    rcases natDecAux_mem (n + 1) n [] c hc2 with hmem | ⟨d, hd, rfl⟩
    · simp at hmem
    · exact digit_ne_comma d hd

theorem jsSplitField_groupConcat (l : List String)
    (hne : l ≠ []) (h : ∀ s ∈ l, s ≠ "" ∧ ∀ c ∈ s.toList, c ≠ ',') :
    jsSplitField (groupConcat l) = l.map some := by
  cases l with
  | nil => exact absurd rfl hne
  | cons s rest =>
    have hjoin_ne : joinChars (s :: rest) ≠ [] := by
      cases rest with
      | nil =>
        have hs : s ≠ "" := (h s (by simp)).1
        intro hcon
        apply hs
        apply (toList_eq_nil_iff s).mp
        simpa [joinChars] using hcon
      | cons s2 r2 => simp [joinChars]
    have hstr_ne : String.mk (joinChars (s :: rest)) ≠ "" := by
      intro hcon
      exact hjoin_ne (by simpa [toList_eq_nil_iff] using congrArg String.toList hcon)
    simp only [groupConcat, jsSplitField, if_neg hstr_ne]
    have : (String.mk (joinChars (s :: rest))).toList = joinChars (s :: rest) := rfl
    rw [this, splitChar_joinChars (s :: rest) (by simp) (fun x hx => (h x hx).2)]

theorem jsSplitField_natDec (l : List Nat) :
    jsSplitField (groupConcat (l.map natDec)) = (l.map natDec).map some := by
  cases l with
  | nil => rfl
  | cons n rest =>
    exact jsSplitField_groupConcat _ (by simp)
      (by
        intro s hs
        rcases List.mem_map.mp hs with ⟨m, _, rfl⟩
        exact ⟨natDec_ne_empty m, natDec_no_comma m⟩)

theorem exists_find?_of_any {α : Type} (l : List α) (p : α → Bool) (h : l.any p = true) :
    ∃ x, l.find? p = some x ∧ p x = true := by
  have h2 : (l.find? p).isSome := List.find?_isSome.mpr (by simpa using List.any_eq_true.mp h)
  rcases Option.isSome_iff_exists.mp h2 with ⟨x, hx⟩
  exact ⟨x, hx, List.find?_some hx⟩

theorem patroExists_find (db : DB) (pid : Nat) (h : patroExists db pid = true) :
    ∃ p, db.patrocinadores.find? (fun p => p.id == pid) = some p ∧ p.id = pid := by
  rcases exists_find?_of_any db.patrocinadores (fun p => p.id == pid) h with ⟨p, hf, hp⟩
  exact ⟨p, hf, by simpa using hp⟩

theorem cityExists_find (db : DB) (cid : Nat) (h : cityExists db cid = true) :
    ∃ c, db.ciudades.find? (fun c => c.id == cid) = some c ∧ c.id = cid := by
  rcases exists_find?_of_any db.ciudades (fun c => c.id == cid) h with ⟨c, hf, hc⟩
  exact ⟨c, hf, by simpa using hc⟩

theorem insertAssocRow_ok (db db1 : DB) (pid cid : Nat)
    (h : insertAssocRow db pid cid = .ok db1) :
    db1.ciudades = db.ciudades ∧ db1.patrocinadores = db.patrocinadores ∧
    db1.restaurantes = db.restaurantes ∧
    db1.asociaciones = db.asociaciones ++ [⟨pid, cid⟩] ∧
    cityExists db cid = true ∧
    db.asociaciones.any (fun a => a.patrocinador_id == pid && a.ciudad_id == cid) = false := by
  by_cases h1 : patroExists db pid
  · by_cases h2 : cityExists db cid
    · by_cases h3 :
        db.asociaciones.any (fun a => a.patrocinador_id == pid && a.ciudad_id == cid) = true
      · simp [insertAssocRow, h1, h2, h3] at h
      · have h3f :
            db.asociaciones.any (fun a => a.patrocinador_id == pid && a.ciudad_id == cid)
              = false := by
          simpa using h3
        simp only [insertAssocRow, if_pos h1, if_pos h2, h3f, Bool.false_eq_true, if_false,
          Except.ok.injEq] at h
        subst h
        exact ⟨rfl, rfl, rfl, rfl, h2, h3f⟩
    · simp [insertAssocRow, h1, h2] at h
  · simp [insertAssocRow, h1] at h

theorem insertAssocs_ok :
    ∀ (cids : List Nat) (db db1 : DB) (pid : Nat),
      insertAssocs pid db cids = .ok db1 →
      db1.ciudades = db.ciudades ∧ db1.patrocinadores = db.patrocinadores ∧
      db1.restaurantes = db.restaurantes ∧
      db1.asociaciones = db.asociaciones ++ cids.map (fun c => (⟨pid, c⟩ : Asociacion)) ∧
      cids.Nodup ∧ (∀ c ∈ cids, cityExists db c = true) ∧
      (∀ x ∈ cids,
        db.asociaciones.any (fun a => a.patrocinador_id == pid && a.ciudad_id == x) = false) := by
  intro cids
  induction cids with
  | nil =>
    intro db db1 pid h
    simp only [insertAssocs, Except.ok.injEq] at h
    subst h
    simp
  | cons c cs ih =>
    intro db db1 pid h
    simp only [insertAssocs] at h
    cases hrow : insertAssocRow db pid c with
    | error e => rw [hrow] at h; exact absurd h (by simp)
    | ok dbm =>
      rw [hrow] at h
      obtain ⟨hc, hp, hr, ha, hcity, hnotin⟩ := insertAssocRow_ok db dbm pid c hrow
      obtain ⟨ihc, ihp, ihr, iha, ihnd, ihcity, ihnew⟩ := ih dbm db1 pid h
      have hnotc : c ∉ cs := by
        intro hmem
        have hfresh := ihnew c hmem
        rw [ha] at hfresh
        simp [List.any_append] at hfresh
      refine ⟨ihc.trans hc, ihp.trans hp, ihr.trans hr, ?_, ?_, ?_, ?_⟩
      · rw [iha, ha]; simp
      · exact List.nodup_cons.mpr ⟨hnotc, ihnd⟩
      · intro x hx
        rcases List.mem_cons.mp hx with rfl | hxs
        · exact hcity
        · have := ihcity x hxs
          unfold cityExists at this ⊢
          rwa [hc] at this
      · intro x hx
        rcases List.mem_cons.mp hx with rfl | hxs
        · exact hnotin
        · have := ihnew x hxs
          rw [ha] at this
          simp only [List.any_append, Bool.or_eq_false_iff] at this
          exact this.1

theorem insertAssocsNoTx_false :
    ∀ (cids : List Nat) (db db1 : DB) (pid : Nat),
      insertAssocsNoTx pid db cids = (false, db1) →
      insertAssocs pid db cids = .ok db1 := by
  intro cids
  induction cids with
  | nil =>
    intro db db1 pid h
    simp only [insertAssocsNoTx, Prod.mk.injEq] at h
    simp [insertAssocs, h.2]
  | cons c cs ih =>
    intro db db1 pid h
    simp only [insertAssocsNoTx] at h
    cases hrow : insertAssocRow db pid c with
    | error e => rw [hrow] at h; simp at h
    | ok dbm =>
      rw [hrow] at h
      simp only [Prod.mk.injEq] at h
      have hr : insertAssocsNoTx pid dbm cs = (false, db1) := by
        rcases h with ⟨h1, h2⟩
        calc insertAssocsNoTx pid dbm cs
            = ((insertAssocsNoTx pid dbm cs).1, (insertAssocsNoTx pid dbm cs).2) := rfl
          _ = (false, db1) := by rw [h1, h2]
      simp only [insertAssocs, hrow]
      exact ih dbm db1 pid hr

theorem foldl_max_le (l : List Patrocinador) :
    ∀ (a : Nat), a ≤ l.foldl (fun m p => max m p.id) a := by
  induction l with
  | nil => intro a; simp
  | cons p l ih =>
    intro a
    calc a ≤ max a p.id := Nat.le_max_left _ _
      _ ≤ l.foldl (fun m q => max m q.id) (max a p.id) := ih _

theorem mem_le_foldl_max (l : List Patrocinador) :
    ∀ (a : Nat) (p : Patrocinador), p ∈ l → p.id ≤ l.foldl (fun m q => max m q.id) a := by
  induction l with
  | nil => intro a p hp; simp at hp
  | cons q l ih =>
    intro a p hp
    rcases List.mem_cons.mp hp with rfl | hmem
    · calc p.id ≤ max a p.id := Nat.le_max_right _ _
        _ ≤ _ := foldl_max_le l _
    · exact ih _ p hmem

theorem patroExists_nextPatroId (db : DB) : patroExists db (nextPatroId db) = false := by
  unfold patroExists nextPatroId
  rw [Bool.eq_false_iff]
  intro h
  rcases List.any_eq_true.mp h with ⟨p, hp, hid⟩
  have hle := mem_le_foldl_max db.patrocinadores 0 p hp
  have : p.id = db.patrocinadores.foldl (fun m q => max m q.id) 0 + 1 := by simpa using hid
  omega

theorem patroExists_update (db : DB) (pid y : Nat) (n e : String) (r : Option String) :
    patroExists (updatePatroRow db pid n e r) y = patroExists db y := by
  unfold patroExists updatePatroRow
  simp only [List.any_map]
  congr 1
  funext q
  by_cases hq : q.id == pid <;> simp [Function.comp, hq]

theorem patroExists_deleteAssocsOf (db : DB) (pid y : Nat) :
    patroExists (deleteAssocsOf db pid) y = patroExists db y := rfl

theorem mkViewById_isSome (db : DB) (pid : Nat) (h : patroExists db pid = true) :
    ∃ p, db.patrocinadores.find? (fun q => q.id == pid) = some p ∧
      mkViewById db pid = some (mkPatrocinadorView db p) ∧ p.id = pid := by
  rcases patroExists_find db pid h with ⟨p, hp, hid⟩
  exact ⟨p, hp, by simp [mkViewById, hp], hid⟩

theorem finishPatrocinadorTx_ok (dbOrig db2 : DB) (pid okCode : Nat) (cids : List Nat)
    (k : Nat) (v : PatrocinadorView)
    (h : (finishPatrocinadorTx dbOrig db2 pid okCode cids).resp = .ok k v) :
    ∃ db3, insertAssocs pid db2 cids = .ok db3 ∧
      (finishPatrocinadorTx dbOrig db2 pid okCode cids).db = db3 ∧
      mkViewById db3 pid = some v ∧ k = okCode := by
  cases hins : insertAssocs pid db2 cids with
  | error e => simp [finishPatrocinadorTx, hins] at h
  | ok db3 =>
    cases hview : mkViewById db3 pid with
    | none => simp [finishPatrocinadorTx, hins, hview] at h
    | some v2 =>
      simp only [finishPatrocinadorTx, hins, hview, Resp.ok.injEq] at h
      refine ⟨db3, rfl, ?_, ?_, h.1.symm⟩
      · simp [finishPatrocinadorTx, hins, hview]
      · rw [hview, h.2]

theorem finishPatrocinadorTx_err (dbOrig db2 : DB) (pid okCode : Nat) (cids : List Nat)
    (hpe : patroExists db2 pid = true)
    (h : ((finishPatrocinadorTx dbOrig db2 pid okCode cids).resp).isOk = false) :
    (finishPatrocinadorTx dbOrig db2 pid okCode cids).db = dbOrig := by
  cases hins : insertAssocs pid db2 cids with
  | error e => simp [finishPatrocinadorTx, hins]
  | ok db3 =>
    have hp3 : patroExists db3 pid = true := by
      obtain ⟨_, hp, _, _, _, _, _⟩ := insertAssocs_ok cids db2 db3 pid hins
      unfold patroExists at hpe ⊢
      rwa [hp]
    rcases mkViewById_isSome db3 pid hp3 with ⟨p, _, hview, _⟩
    simp [finishPatrocinadorTx, hins, hview, Resp.isOk] at h

theorem finishPatrocinadorLocal_ok (db2 : DB) (pid okCode k : Nat) (cids : Option (List Nat))
    (v : PatrocinadorView)
    (h : (finishPatrocinadorLocal db2 pid okCode cids).resp = .ok k v) :
    k = okCode ∧
    (((cids = none ∨ cids = some []) ∧ v.ciudades_nombres = [] ∧ v.ciudades_ids = [] ∧
        v.id = pid ∧
        (finishPatrocinadorLocal db2 pid okCode cids).db = db2) ∨
      ∃ cs db3, cids = some cs ∧ insertAssocs pid db2 cs = .ok db3 ∧
        (finishPatrocinadorLocal db2 pid okCode cids).db = db3 ∧
        mkViewById db3 pid = some v) := by
  match cids with
  | none =>
    cases hfind : db2.patrocinadores.find? (fun p => p.id == pid) with
    | none => simp [finishPatrocinadorLocal, emptyCityRespLocal, hfind] at h
    | some p =>
      simp only [finishPatrocinadorLocal, emptyCityRespLocal, hfind, Resp.ok.injEq] at h
      refine ⟨h.1.symm, Or.inl ⟨Or.inl rfl, ?_, ?_, ?_, ?_⟩⟩
      · rw [← h.2]
      · rw [← h.2]
      · rw [← h.2]
        simpa using List.find?_some hfind
      · simp [finishPatrocinadorLocal, emptyCityRespLocal, hfind]
  | some [] =>
    cases hfind : db2.patrocinadores.find? (fun p => p.id == pid) with
    | none => simp [finishPatrocinadorLocal, emptyCityRespLocal, hfind] at h
    | some p =>
      simp only [finishPatrocinadorLocal, emptyCityRespLocal, hfind, Resp.ok.injEq] at h
      refine ⟨h.1.symm, Or.inl ⟨Or.inr rfl, ?_, ?_, ?_, ?_⟩⟩
      · rw [← h.2]
      · rw [← h.2]
      · rw [← h.2]
        simpa using List.find?_some hfind
      · simp [finishPatrocinadorLocal, emptyCityRespLocal, hfind]
  | some (c :: cs) =>
    cases hflag : (insertAssocsNoTx pid db2 (c :: cs)).1 with
    | true => simp [finishPatrocinadorLocal, hflag] at h
    | false =>
      cases hview : mkViewById (insertAssocsNoTx pid db2 (c :: cs)).2 pid with
      | none => simp [finishPatrocinadorLocal, hflag, hview] at h
      | some v2 =>
        simp only [finishPatrocinadorLocal, hflag, Bool.false_eq_true, if_false, hview,
          Resp.ok.injEq] at h
        have hok : insertAssocs pid db2 (c :: cs) = .ok (insertAssocsNoTx pid db2 (c :: cs)).2 :=
          insertAssocsNoTx_false (c :: cs) db2 _ pid
            (by
              calc insertAssocsNoTx pid db2 (c :: cs)
                  = ((insertAssocsNoTx pid db2 (c :: cs)).1,
                      (insertAssocsNoTx pid db2 (c :: cs)).2) := rfl
                _ = (false, (insertAssocsNoTx pid db2 (c :: cs)).2) := by rw [hflag])
        refine ⟨h.1.symm, Or.inr ⟨c :: cs, (insertAssocsNoTx pid db2 (c :: cs)).2, rfl, hok, ?_,
          by rw [hview, h.2]⟩⟩
        simp [finishPatrocinadorLocal, hflag, hview]

theorem filter_not_filter_nil (A : List Asociacion) (pid : Nat) :
    (A.filter (fun a => !(a.patrocinador_id == pid))).filter
      (fun a => a.patrocinador_id == pid) = [] := by
  induction A with
  | nil => rfl
  | cons a A ih =>
    by_cases ha : a.patrocinador_id == pid <;> simp [List.filter_cons, ha, ih]

theorem filter_append_fresh (A : List Asociacion) (pid : Nat) (cids : List Nat)
    (hA : A.filter (fun a => a.patrocinador_id == pid) = []) :
    (A ++ cids.map (fun c => (⟨pid, c⟩ : Asociacion))).filter
      (fun a => a.patrocinador_id == pid) = cids.map (fun c => (⟨pid, c⟩ : Asociacion)) := by
  rw [List.filter_append, hA, List.nil_append, List.filter_map]
  have : (cids.filter ((fun a => a.patrocinador_id == pid) ∘
      (fun c => (⟨pid, c⟩ : Asociacion)))) = cids := by
    apply List.filter_eq_self.mpr
    intro c _
    simp [Function.comp]
  rw [this]

theorem filterMap_find_map_natDec (C : List Ciudad) :
    ∀ (cids : List Nat), (∀ c ∈ cids, C.any (fun y => y.id == c) = true) →
      (cids.filterMap (fun c => C.find? (fun y => y.id == c))).map (fun y => natDec y.id)
        = cids.map natDec := by
  intro cids
  induction cids with
  | nil => intro _; simp
  | cons c cs ih =>
    intro h
    rcases exists_find?_of_any C (fun y => y.id == c) (h c (by simp)) with ⟨y, hy, hyid⟩
    have hyc : y.id = c := by simpa using hyid
    simp only [List.filterMap_cons, hy, List.map_cons]
    rw [ih (fun x hx => h x (by simp [hx])), hyc]

theorem cityExists_congr (db1 db2 : DB) (h : db1.ciudades = db2.ciudades) (c : Nat) :
    cityExists db1 c = cityExists db2 c := by
  unfold cityExists
  rw [h]

theorem mkView_ids_of_filter (db3 : DB) (p : Patrocinador) (cids : List Nat)
    (hfil : db3.asociaciones.filter (fun a => a.patrocinador_id == p.id)
      = cids.map (fun c => (⟨p.id, c⟩ : Asociacion)))
    (hcity : ∀ c ∈ cids, cityExists db3 c = true) :
    (mkPatrocinadorView db3 p).ciudades_ids = (cids.map natDec).map some := by
  have hcs : ciudadesOf db3 p.id
      = cids.filterMap (fun c => db3.ciudades.find? (fun y => y.id == c)) := by
    unfold ciudadesOf
    rw [hfil, List.filterMap_map]
    rfl
  have hids : (ciudadesOf db3 p.id).map (fun c => natDec c.id) = cids.map natDec := by
    rw [hcs]
    exact filterMap_find_map_natDec db3.ciudades cids (fun c hc => hcity c hc)
  show jsSplitField (groupConcat ((ciudadesOf db3 p.id).map (fun c => natDec c.id)))
    = (cids.map natDec).map some
  rw [hids, ← jsSplitField_natDec]

theorem jsSplitField_no_none (o : Option String) : ∀ x ∈ jsSplitField o, x.isSome = true := by
  cases o with
  | none => simp [jsSplitField]
  | some s =>
    by_cases hs : s = ""
    · simp [jsSplitField, hs]
    · intro x hx
      simp only [jsSplitField, if_neg hs] at hx
      rcases List.mem_map.mp hx with ⟨y, _, rfl⟩
      rfl

theorem mkView_empty_of_no_assoc (db : DB) (p : Patrocinador)
    (h : db.asociaciones.filter (fun a => a.patrocinador_id == p.id) = []) :
    (mkPatrocinadorView db p).ciudades_nombres = [] ∧
      (mkPatrocinadorView db p).ciudades_ids = [] := by
  have hcs : ciudadesOf db p.id = [] := by
    unfold ciudadesOf
    rw [h]
    rfl
  constructor <;> simp [mkPatrocinadorView, hcs, groupConcat, jsSplitField]

theorem validEmail_ne_empty (e : String) (h : validEmail e = true) : e ≠ "" := by
  intro he
  subst he
  exact absurd h (by decide)

theorem putPatrocinadorServer_split (db : DB) (pid : Nat) (b : PatroBody) :
    (patroExists db pid = true ∧
      putPatrocinadorServer db pid b
        = finishPatrocinadorTx db
            (deleteAssocsOf (updatePatroRow db pid (jsTrim b.nombre) (jsTrim b.email)
              (optTrimOrNull b.representante)) pid) pid 200 (b.ciudades_ids.getD [])) ∨
    ((putPatrocinadorServer db pid b).db = db ∧
      ((putPatrocinadorServer db pid b).resp).isOk = false ∧
      (putPatrocinadorServer db pid b).events = []) := by
  by_cases h1 : b.nombre = "" ∨ b.email = ""
  · exact Or.inr (by simp [putPatrocinadorServer, h1, Resp.isOk])
  · by_cases h2 : validEmail b.email = false
    · exact Or.inr (by simp [putPatrocinadorServer, h1, h2, Resp.isOk])
    · by_cases h3 : patroExists db pid = false
      · exact Or.inr (by simp [putPatrocinadorServer, h1, h2, h3, Resp.isOk])
      · by_cases h4 :
          db.patrocinadores.any (fun p => p.email == jsTrim b.email && !(p.id == pid)) = true
        · exact Or.inr (by simp [putPatrocinadorServer, h1, h2, h3, h4, Resp.isOk])
        · refine Or.inl ⟨by simpa using h3, ?_⟩
          simp [putPatrocinadorServer, h1, h2, h3, h4]

theorem postPatrocinadorServer_split (db : DB) (b : PatroBody) :
    (postPatrocinadorServer db b
      = finishPatrocinadorTx db
          { db with patrocinadores := db.patrocinadores ++
              [⟨nextPatroId db, jsTrim b.nombre, jsTrim b.email, optTrimOrNull b.representante⟩] }
          (nextPatroId db) 201 (b.ciudades_ids.getD [])) ∨
    ((postPatrocinadorServer db b).db = db ∧
      ((postPatrocinadorServer db b).resp).isOk = false ∧
      (postPatrocinadorServer db b).events = []) := by
  by_cases h1 : b.nombre = "" ∨ b.email = ""
  · exact Or.inr (by simp [postPatrocinadorServer, h1, Resp.isOk])
  · by_cases h2 : validEmail b.email = false
    · exact Or.inr (by simp [postPatrocinadorServer, h1, h2, Resp.isOk])
    · by_cases h3 : db.patrocinadores.any (fun p => p.email == jsTrim b.email) = true
      · exact Or.inr (by simp [postPatrocinadorServer, h1, h2, h3, Resp.isOk])
      · exact Or.inl (by simp [postPatrocinadorServer, h1, h2, h3])

theorem putPatrocinadorLocal_split (db : DB) (pid : Nat) (b : PatroBody) :
    (patroExists db pid = true ∧
      putPatrocinadorLocal db pid b
        = finishPatrocinadorLocal
            (deleteAssocsOf (updatePatroRow db pid (jsTrim b.nombre) (jsTrim b.email)
              (optTrimOrNull b.representante)) pid) pid 200 b.ciudades_ids) ∨
    ((putPatrocinadorLocal db pid b).db = db ∧
      ((putPatrocinadorLocal db pid b).resp).isOk = false ∧
      (putPatrocinadorLocal db pid b).events = []) := by
  by_cases h1 : b.nombre = "" ∨ b.email = ""
  · exact Or.inr (by simp [putPatrocinadorLocal, h1, Resp.isOk])
  · by_cases h2 : validEmail b.email = false
    · exact Or.inr (by simp [putPatrocinadorLocal, h1, h2, Resp.isOk])
    · by_cases h3 : patroExists db pid = false
      · exact Or.inr (by simp [putPatrocinadorLocal, h1, h2, h3, Resp.isOk])
      · by_cases h4 :
          db.patrocinadores.any (fun p => p.email == jsTrim b.email && !(p.id == pid)) = true
        · exact Or.inr (by simp [putPatrocinadorLocal, h1, h2, h3, h4, Resp.isOk])
        · refine Or.inl ⟨by simpa using h3, ?_⟩
          simp [putPatrocinadorLocal, h1, h2, h3, h4]

theorem postPatrocinadorLocal_split (db : DB) (b : PatroBody) :
    (postPatrocinadorLocal db b
      = finishPatrocinadorLocal
          { db with patrocinadores := db.patrocinadores ++
              [⟨nextPatroId db, jsTrim b.nombre, jsTrim b.email, optTrimOrNull b.representante⟩] }
          (nextPatroId db) 201 b.ciudades_ids) ∨
    ((postPatrocinadorLocal db b).db = db ∧
      ((postPatrocinadorLocal db b).resp).isOk = false ∧
      (postPatrocinadorLocal db b).events = []) := by
  by_cases h1 : b.nombre = "" ∨ b.email = ""
  · exact Or.inr (by simp [postPatrocinadorLocal, h1, Resp.isOk])
  · by_cases h2 : validEmail b.email = false
    · exact Or.inr (by simp [postPatrocinadorLocal, h1, h2, Resp.isOk])
    · by_cases h3 : db.patrocinadores.any (fun p => p.email == jsTrim b.email) = true
      · exact Or.inr (by simp [postPatrocinadorLocal, h1, h2, h3, Resp.isOk])
      · exact Or.inl (by simp [postPatrocinadorLocal, h1, h2, h3])

theorem finishPatrocinadorTx_events (dbOrig db2 : DB) (pid okCode : Nat) (cids : List Nat) :
    (finishPatrocinadorTx dbOrig db2 pid okCode cids).events = [] := by
  cases hins : insertAssocs pid db2 cids with
  | error e => simp [finishPatrocinadorTx, hins]
  | ok db3 =>
    cases hview : mkViewById db3 pid with
    | none => simp [finishPatrocinadorTx, hins, hview]
    | some v => simp [finishPatrocinadorTx, hins, hview]

theorem emptyCityRespLocal_events (db2 : DB) (pid okCode : Nat) :
    (emptyCityRespLocal db2 pid okCode).events = [] := by
  cases hfind : db2.patrocinadores.find? (fun p => p.id == pid) with
  | none => simp [emptyCityRespLocal, hfind]
  | some p => simp [emptyCityRespLocal, hfind]

theorem finishPatrocinadorLocal_events (db2 : DB) (pid okCode : Nat)
    (cids : Option (List Nat)) :
    (finishPatrocinadorLocal db2 pid okCode cids).events = [] := by
  match cids with
  | none => exact emptyCityRespLocal_events db2 pid okCode
  | some [] => exact emptyCityRespLocal_events db2 pid okCode
  | some (c :: cs) =>
    cases hflag : (insertAssocsNoTx pid db2 (c :: cs)).1 with
    | true => simp [finishPatrocinadorLocal, hflag]
    | false =>
      cases hview : mkViewById (insertAssocsNoTx pid db2 (c :: cs)).2 pid with
      | none => simp [finishPatrocinadorLocal, hflag, hview]
      | some v => simp [finishPatrocinadorLocal, hflag, hview]

theorem mkView_no_none (db : DB) (p : Patrocinador) :
    (∀ x ∈ (mkPatrocinadorView db p).ciudades_nombres, x.isSome = true) ∧
    (∀ x ∈ (mkPatrocinadorView db p).ciudades_ids, x.isSome = true) :=
  ⟨jsSplitField_no_none _, jsSplitField_no_none _⟩

theorem success_view_ids (dbFin : DB) (pid : Nat) (cids : List Nat) (v : PatrocinadorView)
    (hfil : dbFin.asociaciones.filter (fun a => a.patrocinador_id == pid)
      = cids.map (fun c => (⟨pid, c⟩ : Asociacion)))
    (hcity : ∀ c ∈ cids, cityExists dbFin c = true)
    (hview : mkViewById dbFin pid = some v) :
    v.ciudades_ids = cids.map (fun n => some (natDec n)) ∧
    assocCityIds dbFin pid = cids ∧ v.id = pid := by
  obtain ⟨p, hp, hv⟩ : ∃ p, dbFin.patrocinadores.find? (fun q => q.id == pid) = some p ∧
      mkPatrocinadorView dbFin p = v := by
    unfold mkViewById at hview
    rcases Option.map_eq_some'.mp hview with ⟨p, hp, hv⟩
    exact ⟨p, hp, hv⟩
  have hpid : p.id = pid := by simpa using List.find?_some hp
  refine ⟨?_, ?_, ?_⟩
  · rw [← hv]
    have hids := mkView_ids_of_filter dbFin p cids (by rw [hpid]; exact hfil)
      (fun c hc => hcity c hc)
    rw [hids]
    simp
  · unfold assocCityIds
    rw [hfil, List.map_map]
    exact List.map_id cids
  · rw [← hv]
    show p.id = pid
    exact hpid

theorem restExists_update (db : DB) (rid y : Nat) (b : RestBody) :
    restExists (updateRestRow db rid b) y = restExists db y := by
  unfold restExists updateRestRow
  simp only [List.any_map]
  congr 1
  funext q
  by_cases hq : q.id == rid <;> simp [Function.comp, hq]

theorem sendUpdate_eq_map :
    ∀ (cs : List SSEClient) (acc : List (Nat × Bool)),
      cs.foldl (fun a c => a ++ [(c.id, c.writeOk)]) acc
        = acc ++ cs.map (fun c => (c.id, c.writeOk)) := by
  intro cs
  induction cs with
  | nil => intro acc; simp
  | cons c cs ih =>
    intro acc
    simp only [List.foldl_cons, List.map_cons]
    rw [ih]
    simp

/-- Claim C1 counterexample: server-local.js runs the association
replacement without a transaction.  With sponsor 7 associated to city 1, a
PUT whose ciudades_ids references the nonexistent city 5 fails with 500,
yet the earlier removal of the association rows has already been
autocommitted: the stored association set afterwards is empty instead of
equalling the pre-call set. -/
theorem claimC1_counterexample :
    ((putPatrocinadorLocal dbW 7 bBadCity).resp).isOk = false ∧
    assocCityIds dbW 7 = [1] ∧
    assocCityIds (putPatrocinadorLocal dbW 7 bBadCity).db 7 = [] := by decide

/-- Claim C1 (amended): the rollback guarantee holds in server.js, whose
PUT /api/patrocinadores and POST /api/patrocinadores run the removal and
the association inserts inside BEGIN/COMMIT/ROLLBACK: whenever the call
does not answer success — in particular when an association insert fails —
the resulting store equals the pre-call store, so the stored association
set is exactly the pre-call one.  In server-local.js every statement
autocommits, so the removal and any successful inserts survive a failed
call (see the counterexample). -/
theorem claimC1_server_rollback :
    (∀ (db : DB) (pid : Nat) (b : PatroBody),
      ((putPatrocinadorServer db pid b).resp).isOk = false →
      (putPatrocinadorServer db pid b).db = db) ∧
    (∀ (db : DB) (b : PatroBody),
      ((postPatrocinadorServer db b).resp).isOk = false →
      (postPatrocinadorServer db b).db = db) := by
  constructor
  · intro db pid b h
    rcases putPatrocinadorServer_split db pid b with ⟨hpe, heq⟩ | ⟨hdb, _, _⟩
    · rw [heq] at h ⊢
      refine finishPatrocinadorTx_err _ _ _ _ _ ?_ h
      rw [patroExists_deleteAssocsOf, patroExists_update]
      exact hpe
    · exact hdb
  · intro db b h
    rcases postPatrocinadorServer_split db b with heq | ⟨hdb, _, _⟩
    · rw [heq] at h ⊢
      refine finishPatrocinadorTx_err _ _ _ _ _ ?_ h
      unfold patroExists
      simp
    · exact hdb

/-- Claim C1 witness: a concrete failed server.js update (the body
references the nonexistent city 5) leaves the store untouched. -/
theorem claimC1_witness :
    (putPatrocinadorServer dbW 7 bBadCity).db = dbW :=
  claimC1_server_rollback.1 dbW 7 bBadCity (by decide)

/-- Claim C2 counterexample: a successful sponsor update publishes no
event at all — neither PUT nor POST /api/patrocinadores ever calls
sendUpdateToAllClients — although the claim requires a
`patrocinador_actualizado` event for every successful sponsor update. -/
theorem claimC2_counterexample :
    ((putPatrocinadorServer dbW 7 bW).resp).isOk = true ∧
    (putPatrocinadorServer dbW 7 bW).events = [] := by decide

/-- Claim C2 (amended): every successful City and Restaurant
create/update/delete and every successful Sponsor delete publishes exactly
one `<resource>_<action>` event, carrying the resulting resource view for
create/update and an id/message payload for delete; Sponsor create and
update publish no event in either server variant. -/
theorem claimC2_events :
    (∀ (db : DB) (n : String) (k : Nat) (c : Ciudad),
      (postCiudad db n).resp = .ok k c →
      (postCiudad db n).events = [⟨"ciudad_agregada", .ciudad c⟩]) ∧
    (∀ (db : DB) (cid : Nat) (n : String) (k : Nat) (c : Ciudad),
      (putCiudad db cid n).resp = .ok k c →
      (putCiudad db cid n).events = [⟨"ciudad_actualizada", .ciudad c⟩]) ∧
    (∀ (db : DB) (cid : Nat),
      ((deleteCiudad db cid).resp).isOk = true →
      (deleteCiudad db cid).events
        = [⟨"ciudad_eliminada", .idMessage cid "Ciudad eliminada"⟩]) ∧
    (∀ (db : DB) (pid : Nat),
      ((deletePatrocinador db pid).resp).isOk = true →
      (deletePatrocinador db pid).events
        = [⟨"patrocinador_eliminado", .idMessage pid "Patrocinador eliminado"⟩]) ∧
    (∀ (db : DB) (b : RestBody) (k : Nat) (v : RestauranteView),
      (postRestaurante db b).resp = .ok k v →
      (postRestaurante db b).events = [⟨"restaurante_agregado", .rest v⟩]) ∧
    (∀ (db : DB) (rid : Nat) (b : RestBody) (k : Nat) (v : RestauranteView),
      (putRestaurante db rid b).resp = .ok k v →
      (putRestaurante db rid b).events = [⟨"restaurante_actualizado", .rest v⟩]) ∧
    (∀ (db : DB) (rid : Nat),
      ((deleteRestaurante db rid).resp).isOk = true →
      (deleteRestaurante db rid).events
        = [⟨"restaurante_eliminado", .idMessage rid "Restaurante eliminado"⟩]) ∧
    (∀ (db : DB) (pid : Nat) (b : PatroBody),
      (putPatrocinadorServer db pid b).events = [] ∧
      (putPatrocinadorLocal db pid b).events = [] ∧
      (postPatrocinadorServer db b).events = [] ∧
      (postPatrocinadorLocal db b).events = []) := by
  refine ⟨?_, ?_, ?_, ?_, ?_, ?_, ?_, ?_⟩
  · intro db n k c h
    by_cases h1 : jsTrim n = ""
    · simp [postCiudad, h1] at h
    · by_cases h2 : db.ciudades.any (fun x => x.nombre == jsTrim n) = true
      · simp [postCiudad, h1, h2] at h
      · have hresp : (postCiudad db n).resp = .ok 201 ⟨nextCiudadId db, jsTrim n⟩ := by
          simp [postCiudad, h1, h2]
        have hev : (postCiudad db n).events
            = [⟨"ciudad_agregada", .ciudad ⟨nextCiudadId db, jsTrim n⟩⟩] := by
          simp [postCiudad, h1, h2]
        rw [hresp] at h
        rw [hev]
        cases h
        rfl
  · intro db cid n k c h
    by_cases h1 : jsTrim n = ""
    · simp [putCiudad, h1] at h
    · by_cases h2 : cityExists db cid = false
      · simp [putCiudad, h1, h2] at h
      · by_cases h3 : db.ciudades.any (fun x => x.nombre == jsTrim n && !(x.id == cid)) = true
        · simp [putCiudad, h1, h2, h3] at h
        · cases hfind : (updateCiudadRow db cid (jsTrim n)).ciudades.find?
              (fun x => x.id == cid) with
          | none => simp [putCiudad, h1, h2, h3, hfind] at h
          | some c0 =>
            have hresp : (putCiudad db cid n).resp = .ok 200 c0 := by
              simp [putCiudad, h1, h2, h3, hfind]
            have hev : (putCiudad db cid n).events
                = [⟨"ciudad_actualizada", .ciudad c0⟩] := by
              simp [putCiudad, h1, h2, h3, hfind]
            rw [hresp] at h
            rw [hev]
            cases h
            rfl
  · intro db cid h
    by_cases h1 : cityExists db cid = true
    · simp [deleteCiudad, h1]
    · simp [deleteCiudad, h1, Resp.isOk] at h
  · intro db pid h
    by_cases h1 : patroExists db pid = true
    · simp [deletePatrocinador, h1]
    · simp [deletePatrocinador, h1, Resp.isOk] at h
  · intro db b k v h
    by_cases h1 : b.nombre_oficial = "" ∨ b.nombre_mostrar = ""
    · simp [postRestaurante, h1] at h
    · have hbranch : postRestaurante db b = insertRestaurante db b ∨
          ((postRestaurante db b).resp).isOk = false := by
        cases hcid : b.ciudad_id with
        | none => exact Or.inl (by simp [postRestaurante, h1, hcid])
        | some cv =>
          by_cases h2 : cityExists db cv = true
          · exact Or.inl (by simp [postRestaurante, h1, hcid, h2])
          · exact Or.inr (by simp [postRestaurante, h1, hcid, h2, Resp.isOk])
      rcases hbranch with heq | hko
      · rw [heq] at h ⊢
        have hresp : (insertRestaurante db b).resp = .ok 201
            (mkRestauranteView { db with restaurantes := db.restaurantes ++
              [⟨nextRestId db, jsTrim b.nombre_oficial, jsTrim b.nombre_mostrar,
                optTrimOrNull b.representante, optTrimOrNull b.email, b.ciudad_id⟩] }
              ⟨nextRestId db, jsTrim b.nombre_oficial, jsTrim b.nombre_mostrar,
                optTrimOrNull b.representante, optTrimOrNull b.email, b.ciudad_id⟩) := rfl
        rw [hresp] at h
        cases h
        rfl
      · rw [h] at hko
        simp [Resp.isOk] at hko
  · intro db rid b k v h
    by_cases h1 : b.nombre_oficial = "" ∨ b.nombre_mostrar = ""
    · simp [putRestaurante, h1] at h
    · by_cases h2 : restExists db rid = false
      · simp [putRestaurante, h1, h2] at h
      · cases hfind : (updateRestRow db rid b).restaurantes.find? (fun r => r.id == rid) with
        | none =>
          cases hcid : b.ciudad_id with
          | none => simp [putRestaurante, h1, h2, hcid, hfind] at h
          | some cv =>
            by_cases h3 : cityExists db cv = true
            · simp [putRestaurante, h1, h2, hcid, h3, hfind] at h
            · simp [putRestaurante, h1, h2, hcid, h3, Resp.isOk] at h
        | some r =>
          have hbranch : putRestaurante db rid b
              = ⟨updateRestRow db rid b, .ok 200 (mkRestauranteView (updateRestRow db rid b) r),
                  [⟨"restaurante_actualizado", .rest (mkRestauranteView (updateRestRow db rid b) r)⟩]⟩ ∨
              ((putRestaurante db rid b).resp).isOk = false := by
            cases hcid : b.ciudad_id with
            | none => exact Or.inl (by simp [putRestaurante, h1, h2, hcid, hfind])
            | some cv =>
              by_cases h3 : cityExists db cv = true
              · exact Or.inl (by simp [putRestaurante, h1, h2, hcid, h3, hfind])
              · exact Or.inr (by simp [putRestaurante, h1, h2, hcid, h3, Resp.isOk])
          rcases hbranch with heq | hko
          · rw [heq] at h ⊢
            cases h
            rfl
          · rw [h] at hko
            simp [Resp.isOk] at hko
  · intro db rid h
    by_cases h1 : restExists db rid = true
    · simp [deleteRestaurante, h1]
    · simp [deleteRestaurante, h1, Resp.isOk] at h
  · intro db pid b
    refine ⟨?_, ?_, ?_, ?_⟩
    · rcases putPatrocinadorServer_split db pid b with ⟨_, heq⟩ | ⟨_, _, hev⟩
      · rw [heq]; exact finishPatrocinadorTx_events _ _ _ _ _
      · exact hev
    · rcases putPatrocinadorLocal_split db pid b with ⟨_, heq⟩ | ⟨_, _, hev⟩
      · rw [heq]; exact finishPatrocinadorLocal_events _ _ _ _
      · exact hev
    · rcases postPatrocinadorServer_split db b with heq | ⟨_, _, hev⟩
      · rw [heq]; exact finishPatrocinadorTx_events _ _ _ _ _
      · exact hev
    · rcases postPatrocinadorLocal_split db b with heq | ⟨_, _, hev⟩
      · rw [heq]; exact finishPatrocinadorLocal_events _ _ _ _
      · exact hev

/-- Claim C2 witness: concrete successful city creation and deletion
publish their events. -/
theorem claimC2_witness :
    (postCiudad dbW "Arequipa").events
      = [⟨"ciudad_agregada", .ciudad ⟨3, "Arequipa"⟩⟩] ∧
    (deleteCiudad dbW 2).events
      = [⟨"ciudad_eliminada", .idMessage 2 "Ciudad eliminada"⟩] :=
  ⟨claimC2_events.1 dbW "Arequipa" 201 ⟨3, "Arequipa"⟩ (by decide),
   claimC2_events.2.2.1 dbW 2 (by decide)⟩

/-- Claim C3 counterexample: a sponsor update or creation whose
ciudades_ids contains the duplicate list [1, 1] does not succeed: the
second insert violates the UNIQUE (patrocinador_id, ciudad_id) pair and
the call answers an error, instead of collapsing the duplicates into one
association row. -/
theorem claimC3_counterexample :
    ((putPatrocinadorServer dbW 7 bDup).resp).isOk = false ∧
    ((putPatrocinadorLocal dbW 7 bDup).resp).isOk = false ∧
    ((postPatrocinadorServer dbW bPostDup).resp).isOk = false ∧
    ((postPatrocinadorLocal dbW bPostDup).resp).isOk = false := by decide

/-- Claim C3 (amended): duplicates in ciudades_ids are not collapsed: the
insert of the second occurrence violates the UNIQUE
(patrocinador_id, ciudad_id) constraint, so any create or update whose
ciudades_ids is not duplicate-free fails in both server variants (server.js
additionally rolls the store back); an empty ciudades_ids is allowed, and
the create or update then succeeds in both variants. -/
theorem claimC3_duplicates_fail :
    (∀ (db : DB) (pid : Nat) (b : PatroBody),
      ¬ (b.ciudades_ids.getD []).Nodup →
      ((putPatrocinadorServer db pid b).resp).isOk = false ∧
      (putPatrocinadorServer db pid b).db = db) ∧
    (∀ (db : DB) (pid : Nat) (b : PatroBody),
      ¬ (b.ciudades_ids.getD []).Nodup →
      ((putPatrocinadorLocal db pid b).resp).isOk = false) ∧
    (∀ (db : DB) (b : PatroBody),
      ¬ (b.ciudades_ids.getD []).Nodup →
      ((postPatrocinadorServer db b).resp).isOk = false ∧
      (postPatrocinadorServer db b).db = db) ∧
    (∀ (db : DB) (b : PatroBody),
      ¬ (b.ciudades_ids.getD []).Nodup →
      ((postPatrocinadorLocal db b).resp).isOk = false) ∧
    (∀ (db : DB) (pid : Nat) (b : PatroBody),
      b.ciudades_ids = some [] → b.nombre ≠ "" → validEmail b.email = true →
      patroExists db pid = true →
      db.patrocinadores.any (fun p => p.email == jsTrim b.email && !(p.id == pid)) = false →
      ((putPatrocinadorServer db pid b).resp).isOk = true ∧
      ((putPatrocinadorLocal db pid b).resp).isOk = true) ∧
    (∀ (db : DB) (b : PatroBody),
      b.ciudades_ids = some [] → b.nombre ≠ "" → validEmail b.email = true →
      db.patrocinadores.any (fun p => p.email == jsTrim b.email) = false →
      ((postPatrocinadorServer db b).resp).isOk = true ∧
      ((postPatrocinadorLocal db b).resp).isOk = true) := by
  refine ⟨?_, ?_, ?_, ?_, ?_, ?_⟩
  · intro db pid b hnd
    rcases putPatrocinadorServer_split db pid b with ⟨hpe, heq⟩ | ⟨hdb, hko, _⟩
    · have hpe2 : patroExists (deleteAssocsOf (updatePatroRow db pid (jsTrim b.nombre)
          (jsTrim b.email) (optTrimOrNull b.representante)) pid) pid = true := by
        rw [patroExists_deleteAssocsOf, patroExists_update]
        exact hpe
      have hko2 : ((finishPatrocinadorTx db
          (deleteAssocsOf (updatePatroRow db pid (jsTrim b.nombre) (jsTrim b.email)
            (optTrimOrNull b.representante)) pid) pid 200 (b.ciudades_ids.getD [])).resp).isOk
          = false := by
        cases hok : (finishPatrocinadorTx db
            (deleteAssocsOf (updatePatroRow db pid (jsTrim b.nombre) (jsTrim b.email)
              (optTrimOrNull b.representante)) pid) pid 200 (b.ciudades_ids.getD [])).resp with
        | ok k v =>
          exfalso
          rcases finishPatrocinadorTx_ok _ _ _ _ _ k v hok with ⟨db3, hins, _, _, _⟩
          exact hnd (insertAssocs_ok _ _ _ _ hins).2.2.2.2.1
        | err cd m => rfl
      constructor
      · rw [heq]
        exact hko2
      · rw [heq]
        exact finishPatrocinadorTx_err _ _ _ _ _ hpe2 hko2
    · exact ⟨hko, hdb⟩
  · intro db pid b hnd
    rcases putPatrocinadorLocal_split db pid b with ⟨hpe, heq⟩ | ⟨_, hko, _⟩
    · rw [heq]
      cases hok : (finishPatrocinadorLocal
          (deleteAssocsOf (updatePatroRow db pid (jsTrim b.nombre) (jsTrim b.email)
            (optTrimOrNull b.representante)) pid) pid 200 b.ciudades_ids).resp with
      | ok k v =>
        exfalso
        rcases finishPatrocinadorLocal_ok _ pid 200 k b.ciudades_ids v hok with ⟨_, hcase⟩
        rcases hcase with ⟨hcids, _, _, _⟩ | ⟨cs, db3, hcs, hins, _, _⟩
        · rcases hcids with h0 | h0 <;> rw [h0] at hnd <;> simp at hnd
        · rw [hcs] at hnd
          exact hnd (by simpa using (insertAssocs_ok _ _ _ _ hins).2.2.2.2.1)
      | err cd m => rfl
    · exact hko
  · intro db b hnd
    rcases postPatrocinadorServer_split db b with heq | ⟨hdb, hko, _⟩
    · have hpe1 : patroExists
          { db with patrocinadores := db.patrocinadores ++
              [⟨nextPatroId db, jsTrim b.nombre, jsTrim b.email,
                optTrimOrNull b.representante⟩] } (nextPatroId db) = true := by
        unfold patroExists
        simp
      have hko2 : ((finishPatrocinadorTx db
          { db with patrocinadores := db.patrocinadores ++
              [⟨nextPatroId db, jsTrim b.nombre, jsTrim b.email,
                optTrimOrNull b.representante⟩] }
          (nextPatroId db) 201 (b.ciudades_ids.getD [])).resp).isOk = false := by
        cases hok : (finishPatrocinadorTx db
            { db with patrocinadores := db.patrocinadores ++
                [⟨nextPatroId db, jsTrim b.nombre, jsTrim b.email,
                  optTrimOrNull b.representante⟩] }
            (nextPatroId db) 201 (b.ciudades_ids.getD [])).resp with
        | ok k v =>
          exfalso
          rcases finishPatrocinadorTx_ok _ _ _ _ _ k v hok with ⟨db3, hins, _, _, _⟩
          exact hnd (insertAssocs_ok _ _ _ _ hins).2.2.2.2.1
        | err cd m => rfl
      constructor
      · rw [heq]
        exact hko2
      · rw [heq]
        exact finishPatrocinadorTx_err _ _ _ _ _ hpe1 hko2
    · exact ⟨hko, hdb⟩
  · intro db b hnd
    rcases postPatrocinadorLocal_split db b with heq | ⟨_, hko, _⟩
    · rw [heq]
      cases hok : (finishPatrocinadorLocal
          { db with patrocinadores := db.patrocinadores ++
              [⟨nextPatroId db, jsTrim b.nombre, jsTrim b.email,
                optTrimOrNull b.representante⟩] }
          (nextPatroId db) 201 b.ciudades_ids).resp with
      | ok k v =>
        exfalso
        rcases finishPatrocinadorLocal_ok _ (nextPatroId db) 201 k b.ciudades_ids v hok with
          ⟨_, hcase⟩
        rcases hcase with ⟨hcids, _, _, _⟩ | ⟨cs, db3, hcs, hins, _, _⟩
        · rcases hcids with h0 | h0 <;> rw [h0] at hnd <;> simp at hnd
        · rw [hcs] at hnd
          exact hnd (by simpa using (insertAssocs_ok _ _ _ _ hins).2.2.2.2.1)
      | err cd m => rfl
    · exact hko
  · intro db pid b hcids hn hv hp hconf
    have h1 : ¬(b.nombre = "" ∨ b.email = "") := by
      rintro (hx | hx)
      · exact hn hx
      · exact validEmail_ne_empty b.email hv hx
    have h2 : ¬(validEmail b.email = false) := by
      rw [hv]
      simp
    have h3 : ¬(patroExists db pid = false) := by
      rw [hp]
      simp
    have h4 :
        ¬(db.patrocinadores.any (fun p => p.email == jsTrim b.email && !(p.id == pid)) = true) := by
      rw [hconf]
      simp
    have hpe2 : patroExists (deleteAssocsOf (updatePatroRow db pid (jsTrim b.nombre)
        (jsTrim b.email) (optTrimOrNull b.representante)) pid) pid = true := by
      rw [patroExists_deleteAssocsOf, patroExists_update]
      exact hp
    constructor
    · rcases mkViewById_isSome _ pid hpe2 with ⟨p, _, hview, _⟩
      simp [putPatrocinadorServer, h1, h2, h3, h4, hcids, finishPatrocinadorTx, insertAssocs,
        hview, Resp.isOk]
    · rcases patroExists_find _ pid hpe2 with ⟨p, hfind, _⟩
      simp [putPatrocinadorLocal, h1, h2, h3, h4, hcids, finishPatrocinadorLocal,
        emptyCityRespLocal, hfind, Resp.isOk]
  · intro db b hcids hn hv hconf
    have h1 : ¬(b.nombre = "" ∨ b.email = "") := by
      rintro (hx | hx)
      · exact hn hx
      · exact validEmail_ne_empty b.email hv hx
    have h2 : ¬(validEmail b.email = false) := by
      rw [hv]
      simp
    have h3 : ¬(db.patrocinadores.any (fun p => p.email == jsTrim b.email) = true) := by
      rw [hconf]
      simp
    have hpe1 : patroExists
        { db with patrocinadores := db.patrocinadores ++
            [⟨nextPatroId db, jsTrim b.nombre, jsTrim b.email,
              optTrimOrNull b.representante⟩] } (nextPatroId db) = true := by
      unfold patroExists
      simp
    constructor
    · rcases mkViewById_isSome _ (nextPatroId db) hpe1 with ⟨p, _, hview, _⟩
      simp [postPatrocinadorServer, h1, h2, h3, hcids, finishPatrocinadorTx, insertAssocs,
        hview, Resp.isOk]
    · rcases patroExists_find _ (nextPatroId db) hpe1 with ⟨p, hfind, _⟩
      simp [postPatrocinadorLocal, h1, h2, h3, hcids, finishPatrocinadorLocal,
        emptyCityRespLocal, hfind, Resp.isOk]

/-- Claim C3 witness: the duplicate bodies fail — leaving the server.js
store unchanged — while the empty bodies succeed on every create and
update endpoint of both variants. -/
theorem claimC3_witness :
    (putPatrocinadorServer dbW 7 bDup).db = dbW ∧
    (postPatrocinadorServer dbW bPostDup).db = dbW ∧
    ((putPatrocinadorServer dbW 7 bEmpty).resp).isOk = true ∧
    ((putPatrocinadorLocal dbW 7 bEmpty).resp).isOk = true ∧
    ((postPatrocinadorServer dbW bPostEmpty).resp).isOk = true ∧
    ((postPatrocinadorLocal dbW bPostEmpty).resp).isOk = true :=
  ⟨(claimC3_duplicates_fail.1 dbW 7 bDup (by decide)).2,
   (claimC3_duplicates_fail.2.2.1 dbW bPostDup (by decide)).2,
   (claimC3_duplicates_fail.2.2.2.2.1 dbW 7 bEmpty rfl (by decide) (by decide) (by decide)
      (by decide)).1,
   (claimC3_duplicates_fail.2.2.2.2.1 dbW 7 bEmpty rfl (by decide) (by decide) (by decide)
      (by decide)).2,
   (claimC3_duplicates_fail.2.2.2.2.2 dbW bPostEmpty rfl (by decide) (by decide) (by decide)).1,
   (claimC3_duplicates_fail.2.2.2.2.2 dbW bPostEmpty rfl (by decide) (by decide) (by decide)).2⟩

/-- Claim C4: deleting an existing city succeeds, sets the city reference
of every restaurant that pointed at it to NULL (deleting no restaurant
row), cascade-removes exactly the association rows referencing it, and
leaves the sponsor table untouched. -/
theorem claimC4_city_delete (db : DB) (cid : Nat) (h : cityExists db cid = true) :
    ((deleteCiudad db cid).resp).isOk = true ∧
    (deleteCiudad db cid).db.patrocinadores = db.patrocinadores ∧
    (deleteCiudad db cid).db.restaurantes.map (fun r => r.id)
      = db.restaurantes.map (fun r => r.id) ∧
    (∀ r ∈ db.restaurantes, r.ciudad_id = some cid →
      ∃ r2 ∈ (deleteCiudad db cid).db.restaurantes, r2.id = r.id ∧ r2.ciudad_id = none) ∧
    (∀ r ∈ db.restaurantes, r.ciudad_id ≠ some cid →
      r ∈ (deleteCiudad db cid).db.restaurantes) ∧
    (∀ a ∈ (deleteCiudad db cid).db.asociaciones, a.ciudad_id ≠ cid) ∧
    (∀ a ∈ db.asociaciones, a.ciudad_id ≠ cid → a ∈ (deleteCiudad db cid).db.asociaciones) := by
  have hrun : deleteCiudad db cid =
      ⟨{ ciudades := db.ciudades.filter (fun c => !(c.id == cid))
       , patrocinadores := db.patrocinadores
       , asociaciones := db.asociaciones.filter (fun a => !(a.ciudad_id == cid))
       , restaurantes := db.restaurantes.map (fun r =>
           if r.ciudad_id = some cid then { r with ciudad_id := none } else r) }
      , .ok 200 "Ciudad eliminada correctamente"
      , [⟨"ciudad_eliminada", .idMessage cid "Ciudad eliminada"⟩]⟩ := by
    simp [deleteCiudad, h]
  rw [hrun]
  refine ⟨rfl, rfl, ?_, ?_, ?_, ?_, ?_⟩
  · show (db.restaurantes.map (fun r =>
        if r.ciudad_id = some cid then { r with ciudad_id := none } else r)).map (fun r => r.id)
      = db.restaurantes.map (fun r => r.id)
    rw [List.map_map]
    congr 1
    funext r
    by_cases hr : r.ciudad_id = some cid <;> simp [Function.comp, hr]
  · intro r hr hcid
    refine ⟨({ r with ciudad_id := none } : Restaurante),
      List.mem_map.mpr ⟨r, hr, by simp [hcid]⟩, rfl, rfl⟩
  · intro r hr hcid
    exact List.mem_map.mpr ⟨r, hr, by simp [hcid]⟩
  · intro a ha
    have := (List.mem_filter.mp ha).2
    simpa using this
  · intro a ha hne
    exact List.mem_filter.mpr ⟨ha, by simpa using hne⟩

/-- Claim C4 witness: deleting city 1 from the concrete store succeeds,
keeps the sponsor rows, and leaves no association row for city 1. -/
theorem claimC4_witness :
    ((deleteCiudad dbW 1).resp).isOk = true ∧
    (deleteCiudad dbW 1).db.patrocinadores = dbW.patrocinadores :=
  ⟨(claimC4_city_delete dbW 1 (by decide)).1, (claimC4_city_delete dbW 1 (by decide)).2.1⟩

/-- Claim C8 counterexample: an update whose body fails validation is
rejected with 400 before the store is consulted, even when the targeted id
does not exist — the claim's unconditional 404 does not hold.  Here city
99 is absent from the store, yet PUT with an empty name answers 400. -/
theorem claimC8_counterexample :
    cityExists dbW 99 = false ∧ ((putCiudad dbW 99 "").resp).status = 400 := by decide

/-- Claim C8 (amended): an Update or Delete aimed at a nonexistent id
never answers success; it answers 404 whenever the request passes input
validation (Deletes always do; Updates whose body fails validation answer
400 regardless of the id).  This holds for cities, sponsors (both server
variants), and restaurants. -/
theorem claimC8_not_found :
    (∀ (db : DB) (cid : Nat) (nombre : String), cityExists db cid = false →
      (jsTrim nombre ≠ "" → ((putCiudad db cid nombre).resp).status = 404) ∧
      ((putCiudad db cid nombre).resp).isOk = false) ∧
    (∀ (db : DB) (cid : Nat), cityExists db cid = false →
      ((deleteCiudad db cid).resp).status = 404 ∧
      ((deleteCiudad db cid).resp).isOk = false) ∧
    (∀ (db : DB) (pid : Nat) (b : PatroBody), patroExists db pid = false →
      (b.nombre ≠ "" → validEmail b.email = true →
        ((putPatrocinadorServer db pid b).resp).status = 404 ∧
        ((putPatrocinadorLocal db pid b).resp).status = 404) ∧
      ((putPatrocinadorServer db pid b).resp).isOk = false ∧
      ((putPatrocinadorLocal db pid b).resp).isOk = false) ∧
    (∀ (db : DB) (pid : Nat), patroExists db pid = false →
      ((deletePatrocinador db pid).resp).status = 404 ∧
      ((deletePatrocinador db pid).resp).isOk = false) ∧
    (∀ (db : DB) (rid : Nat) (b : RestBody), restExists db rid = false →
      (b.nombre_oficial ≠ "" → b.nombre_mostrar ≠ "" →
        ((putRestaurante db rid b).resp).status = 404) ∧
      ((putRestaurante db rid b).resp).isOk = false) ∧
    (∀ (db : DB) (rid : Nat), restExists db rid = false →
      ((deleteRestaurante db rid).resp).status = 404 ∧
      ((deleteRestaurante db rid).resp).isOk = false) := by
  refine ⟨?_, ?_, ?_, ?_, ?_, ?_⟩
  · intro db cid nombre h
    constructor
    · intro htrim
      simp [putCiudad, htrim, h, Resp.status]
    · by_cases h1 : jsTrim nombre = ""
      · simp [putCiudad, h1, Resp.isOk]
      · simp [putCiudad, h1, h, Resp.isOk]
  · intro db cid h
    have h1 : ¬(cityExists db cid = true) := by
      rw [h]
      simp
    exact ⟨by simp [deleteCiudad, h1, Resp.status], by simp [deleteCiudad, h1, Resp.isOk]⟩
  · intro db pid b h
    refine ⟨fun hn hv => ?_, ?_, ?_⟩
    · have h1 : ¬(b.nombre = "" ∨ b.email = "") := by
        rintro (hx | hx)
        · exact hn hx
        · exact validEmail_ne_empty b.email hv hx
      have h2 : ¬(validEmail b.email = false) := by
        rw [hv]
        simp
      constructor
      · simp [putPatrocinadorServer, h1, h2, h, Resp.status]
      · simp [putPatrocinadorLocal, h1, h2, h, Resp.status]
    · by_cases h1 : b.nombre = "" ∨ b.email = ""
      · simp [putPatrocinadorServer, h1, Resp.isOk]
      · by_cases h2 : validEmail b.email = false
        · simp [putPatrocinadorServer, h1, h2, Resp.isOk]
        · simp [putPatrocinadorServer, h1, h2, h, Resp.isOk]
    · by_cases h1 : b.nombre = "" ∨ b.email = ""
      · simp [putPatrocinadorLocal, h1, Resp.isOk]
      · by_cases h2 : validEmail b.email = false
        · simp [putPatrocinadorLocal, h1, h2, Resp.isOk]
        · simp [putPatrocinadorLocal, h1, h2, h, Resp.isOk]
  · intro db pid h
    have h1 : ¬(patroExists db pid = true) := by
      rw [h]
      simp
    exact ⟨by simp [deletePatrocinador, h1, Resp.status],
      by simp [deletePatrocinador, h1, Resp.isOk]⟩
  · intro db rid b h
    refine ⟨fun hn1 hn2 => ?_, ?_⟩
    · have h1 : ¬(b.nombre_oficial = "" ∨ b.nombre_mostrar = "") := by
        rintro (hx | hx)
        · exact hn1 hx
        · exact hn2 hx
      simp [putRestaurante, h1, h, Resp.status]
    · by_cases h1 : b.nombre_oficial = "" ∨ b.nombre_mostrar = ""
      · simp [putRestaurante, h1, Resp.isOk]
      · simp [putRestaurante, h1, h, Resp.isOk]
  · intro db rid h
    have h1 : ¬(restExists db rid = true) := by
      rw [h]
      simp
    exact ⟨by simp [deleteRestaurante, h1, Resp.status],
      by simp [deleteRestaurante, h1, Resp.isOk]⟩

/-- Claim C8 witness: concrete not-found outcomes against the fixture
store, which has no resource with id 99. -/
theorem claimC8_witness :
    ((putCiudad dbW 99 "Trujillo").resp).status = 404 ∧
    ((deleteCiudad dbW 99).resp).status = 404 ∧
    ((putPatrocinadorServer dbW 99 bW).resp).status = 404 ∧
    ((deleteRestaurante dbW 99).resp).status = 404 :=
  ⟨(claimC8_not_found.1 dbW 99 "Trujillo" (by decide)).1 (by decide),
   (claimC8_not_found.2.1 dbW 99 (by decide)).1,
   ((claimC8_not_found.2.2.1 dbW 99 bW (by decide)).1 (by decide) (by decide)).1,
   (claimC8_not_found.2.2.2.2.2 dbW 99 (by decide)).1⟩

/-- Claim C9: every search endpoint answers the empty list, without
touching the store, when the query parameter is omitted or empty; this is
not an error response, and (as the witness shows on a nonempty store) not
the full collection. -/
theorem claimC9_empty_query (db : DB) (q : Option String)
    (h : q = none ∨ q = some "") :
    buscarCiudades db q = (false, []) ∧
    buscarPatrocinadores db q = (false, []) ∧
    buscarRestaurantes db q = (false, []) := by
  rcases h with rfl | rfl <;>
    simp [buscarCiudades, buscarPatrocinadores, buscarRestaurantes]

/-- Claim C9 witness: the guard on the concrete nonempty store, whose full
city collection is not empty. -/
theorem claimC9_witness :
    buscarCiudades dbW (some "") = (false, []) ∧
    buscarCiudades dbW none = (false, []) ∧
    dbW.ciudades ≠ [] :=
  ⟨(claimC9_empty_query dbW (some "") (Or.inr rfl)).1,
   (claimC9_empty_query dbW none (Or.inl rfl)).1,
   by decide⟩

theorem assocCityIds_deleteAssocsOf (db : DB) (pid : Nat) :
    assocCityIds (deleteAssocsOf db pid) pid = [] := by
  show ((db.asociaciones.filter (fun a => !(a.patrocinador_id == pid))).filter
      (fun a => a.patrocinador_id == pid)).map (fun a => a.ciudad_id) = []
  rw [filter_not_filter_nil]
  rfl

theorem filter_fresh_nil (db : DB) (hWF : ∀ a ∈ db.asociaciones,
    patroExists db a.patrocinador_id = true) :
    db.asociaciones.filter (fun a => a.patrocinador_id == nextPatroId db) = [] := by
  rw [List.filter_eq_nil_iff]
  intro a ha hbeq
  have hid : a.patrocinador_id = nextPatroId db := by simpa using hbeq
  have h1 := hWF a ha
  rw [hid, patroExists_nextPatroId] at h1
  exact absurd h1 (by simp)

theorem assocCityIds_fresh_nil (db : DB) (P : List Patrocinador)
    (hWF : ∀ a ∈ db.asociaciones, patroExists db a.patrocinador_id = true) :
    assocCityIds { db with patrocinadores := P } (nextPatroId db) = [] := by
  show (db.asociaciones.filter (fun a => a.patrocinador_id == nextPatroId db)).map
    (fun a => a.ciudad_id) = []
  rw [filter_fresh_nil db hWF]
  rfl

/-- Claim C5: a successful sponsor create or update with cityIds S returns
(and any subsequent read through the aggregator sees) exactly S: the
returned view's ciudades_ids, as a set, is the set of decimal renderings
of S, and the stored association set for that sponsor is exactly S —
whatever the association set was before the call.  For the create
endpoints the store is assumed to satisfy the foreign-key invariant that
every association row references an existing sponsor. -/
theorem claimC5_read_back :
    (∀ (db : DB) (pid k : Nat) (b : PatroBody) (v : PatrocinadorView),
      (putPatrocinadorServer db pid b).resp = .ok k v →
      v.ciudades_ids.toFinset
        = ((b.ciudades_ids.getD []).map (fun n => some (natDec n))).toFinset ∧
      (assocCityIds (putPatrocinadorServer db pid b).db pid).toFinset
        = (b.ciudades_ids.getD []).toFinset) ∧
    (∀ (db : DB) (pid k : Nat) (b : PatroBody) (v : PatrocinadorView),
      (putPatrocinadorLocal db pid b).resp = .ok k v →
      v.ciudades_ids.toFinset
        = ((b.ciudades_ids.getD []).map (fun n => some (natDec n))).toFinset ∧
      (assocCityIds (putPatrocinadorLocal db pid b).db pid).toFinset
        = (b.ciudades_ids.getD []).toFinset) ∧
    (∀ (db : DB) (k : Nat) (b : PatroBody) (v : PatrocinadorView),
      (∀ a ∈ db.asociaciones, patroExists db a.patrocinador_id = true) →
      (postPatrocinadorServer db b).resp = .ok k v →
      v.ciudades_ids.toFinset
        = ((b.ciudades_ids.getD []).map (fun n => some (natDec n))).toFinset ∧
      (assocCityIds (postPatrocinadorServer db b).db v.id).toFinset
        = (b.ciudades_ids.getD []).toFinset) ∧
    (∀ (db : DB) (k : Nat) (b : PatroBody) (v : PatrocinadorView),
      (∀ a ∈ db.asociaciones, patroExists db a.patrocinador_id = true) →
      (postPatrocinadorLocal db b).resp = .ok k v →
      v.ciudades_ids.toFinset
        = ((b.ciudades_ids.getD []).map (fun n => some (natDec n))).toFinset ∧
      (assocCityIds (postPatrocinadorLocal db b).db v.id).toFinset
        = (b.ciudades_ids.getD []).toFinset) := by
  refine ⟨?_, ?_, ?_, ?_⟩
  · intro db pid k b v h
    rcases putPatrocinadorServer_split db pid b with ⟨hpe, heq⟩ | ⟨_, hko, _⟩
    · rw [heq] at h ⊢
      rcases finishPatrocinadorTx_ok _ _ _ _ _ k v h with ⟨db3, hins, hdb3, hview, hk⟩
      obtain ⟨hc, hp, hr, ha, hnd, hcity, _⟩ := insertAssocs_ok _ _ _ _ hins
      have hfil : db3.asociaciones.filter (fun a => a.patrocinador_id == pid)
          = (b.ciudades_ids.getD []).map (fun c => (⟨pid, c⟩ : Asociacion)) := by
        rw [ha]
        exact filter_append_fresh _ pid _ (filter_not_filter_nil db.asociaciones pid)
      have hcity3 : ∀ c ∈ b.ciudades_ids.getD [], cityExists db3 c = true := by
        intro c hcm
        rw [cityExists_congr db3 _ hc]
        exact hcity c hcm
      obtain ⟨hids, hassoc, _⟩ := success_view_ids db3 pid _ v hfil hcity3 hview
      constructor
      · rw [hids]
      · rw [hdb3, hassoc]
    · rw [h] at hko
      simp [Resp.isOk] at hko
  · intro db pid k b v h
    rcases putPatrocinadorLocal_split db pid b with ⟨hpe, heq⟩ | ⟨_, hko, _⟩
    · rw [heq] at h ⊢
      rcases finishPatrocinadorLocal_ok _ pid 200 k b.ciudades_ids v h with ⟨_, hcase⟩
      rcases hcase with ⟨hcids, hnoms, hids, hvid, hdb⟩ | ⟨cs, db3, hcs, hins, hdb3, hview⟩
      · have hget : b.ciudades_ids.getD [] = [] := by
          rcases hcids with h0 | h0 <;> rw [h0] <;> rfl
        rw [hget, hids, hdb, assocCityIds_deleteAssocsOf]
        simp
      · have hgd : b.ciudades_ids.getD [] = cs := by simp [hcs]
        obtain ⟨hc, hp, hr, ha, hnd, hcity, _⟩ := insertAssocs_ok _ _ _ _ hins
        have hfil : db3.asociaciones.filter (fun a => a.patrocinador_id == pid)
            = cs.map (fun c => (⟨pid, c⟩ : Asociacion)) := by
          rw [ha]
          exact filter_append_fresh _ pid _ (filter_not_filter_nil db.asociaciones pid)
        have hcity3 : ∀ c ∈ cs, cityExists db3 c = true := by
          intro c hcm
          rw [cityExists_congr db3 _ hc]
          exact hcity c hcm
        obtain ⟨hids, hassoc, _⟩ := success_view_ids db3 pid _ v hfil hcity3 hview
        constructor
        · rw [hids, hgd]
        · rw [hdb3, hassoc, hgd]
    · rw [h] at hko
      simp [Resp.isOk] at hko
  · intro db k b v hWF h
    rcases postPatrocinadorServer_split db b with heq | ⟨_, hko, _⟩
    · rw [heq] at h ⊢
      rcases finishPatrocinadorTx_ok _ _ _ _ _ k v h with ⟨db3, hins, hdb3, hview, hk⟩
      obtain ⟨hc, hp, hr, ha, hnd, hcity, _⟩ := insertAssocs_ok _ _ _ _ hins
      have hfil : db3.asociaciones.filter (fun a => a.patrocinador_id == nextPatroId db)
          = (b.ciudades_ids.getD []).map (fun c => (⟨nextPatroId db, c⟩ : Asociacion)) := by
        rw [ha]
        exact filter_append_fresh _ _ _ (filter_fresh_nil db hWF)
      have hcity3 : ∀ c ∈ b.ciudades_ids.getD [], cityExists db3 c = true := by
        intro c hcm
        rw [cityExists_congr db3 _ hc]
        exact hcity c hcm
      obtain ⟨hids, hassoc, hvid⟩ := success_view_ids db3 (nextPatroId db) _ v hfil hcity3 hview
      constructor
      · rw [hids]
      · rw [hvid, hdb3, hassoc]
    · rw [h] at hko
      simp [Resp.isOk] at hko
  · intro db k b v hWF h
    rcases postPatrocinadorLocal_split db b with heq | ⟨_, hko, _⟩
    · rw [heq] at h ⊢
      rcases finishPatrocinadorLocal_ok _ (nextPatroId db) 201 k b.ciudades_ids v h with
        ⟨_, hcase⟩
      rcases hcase with ⟨hcids, hnoms, hids, hvid, hdb⟩ | ⟨cs, db3, hcs, hins, hdb3, hview⟩
      · have hget : b.ciudades_ids.getD [] = [] := by
          rcases hcids with h0 | h0 <;> rw [h0] <;> rfl
        rw [hget, hids, hvid, hdb, assocCityIds_fresh_nil db _ hWF]
        simp
      · have hgd : b.ciudades_ids.getD [] = cs := by simp [hcs]
        obtain ⟨hc, hp, hr, ha, hnd, hcity, _⟩ := insertAssocs_ok _ _ _ _ hins
        have hfil : db3.asociaciones.filter (fun a => a.patrocinador_id == nextPatroId db)
            = cs.map (fun c => (⟨nextPatroId db, c⟩ : Asociacion)) := by
          rw [ha]
          exact filter_append_fresh _ _ _ (filter_fresh_nil db hWF)
        have hcity3 : ∀ c ∈ cs, cityExists db3 c = true := by
          intro c hcm
          rw [cityExists_congr db3 _ hc]
          exact hcity c hcm
        obtain ⟨hids, hassoc, hvid⟩ := success_view_ids db3 (nextPatroId db) _ v hfil hcity3 hview
        constructor
        · rw [hids, hgd]
        · rw [hvid, hdb3, hassoc, hgd]
    · rw [h] at hko
      simp [Resp.isOk] at hko

/-- Claim C5 witness: updating sponsor 7 (previously associated to city 1)
with cityIds [2, 1] yields a view whose ciudades_ids set is exactly the
renderings of 2 and 1, and stores exactly that association set. -/
theorem claimC5_witness :
    (PatrocinadorView.ciudades_ids
        ⟨7, "Acme", "a@a.com", none, [some "Cusco", some "Lima"],
          [some "2", some "1"]⟩).toFinset
      = ((bW2.ciudades_ids.getD []).map (fun n => some (natDec n))).toFinset ∧
    (assocCityIds (putPatrocinadorServer dbW 7 bW2).db 7).toFinset
      = (bW2.ciudades_ids.getD []).toFinset :=
  claimC5_read_back.1 dbW 7 200 bW2
    ⟨7, "Acme", "a@a.com", none, [some "Cusco", some "Lima"], [some "2", some "1"]⟩
    (by decide)

theorem mkViewById_no_none (db : DB) (pid : Nat) (v : PatrocinadorView)
    (h : mkViewById db pid = some v) :
    (∀ x ∈ v.ciudades_nombres, x.isSome = true) ∧
    (∀ x ∈ v.ciudades_ids, x.isSome = true) := by
  unfold mkViewById at h
  rcases Option.map_eq_some'.mp h with ⟨p, _, hv⟩
  rw [← hv]
  exact mkView_no_none db p

/-- Claim C6: every sponsor view produced by the read aggregator — in the
list endpoint, in search, and in the views answered by the create/update
handlers — carries ciudades_nombres and ciudades_ids lists that never
contain a null entry, and both lists are empty (not a one-element list
holding null) whenever the sponsor has no association rows. -/
theorem claimC6_no_null_lists :
    (∀ (db : DB) (p : Patrocinador),
      (∀ x ∈ (mkPatrocinadorView db p).ciudades_nombres, x.isSome = true) ∧
      (∀ x ∈ (mkPatrocinadorView db p).ciudades_ids, x.isSome = true) ∧
      (db.asociaciones.filter (fun a => a.patrocinador_id == p.id) = [] →
        (mkPatrocinadorView db p).ciudades_nombres = [] ∧
        (mkPatrocinadorView db p).ciudades_ids = [])) ∧
    (∀ (db : DB) (v : PatrocinadorView), v ∈ getPatrocinadores db →
      (∀ x ∈ v.ciudades_nombres, x.isSome = true) ∧
      (∀ x ∈ v.ciudades_ids, x.isSome = true)) ∧
    (∀ (db : DB) (q : Option String) (v : PatrocinadorView),
      v ∈ (buscarPatrocinadores db q).2 →
      (∀ x ∈ v.ciudades_nombres, x.isSome = true) ∧
      (∀ x ∈ v.ciudades_ids, x.isSome = true)) ∧
    (∀ (db : DB) (pid k : Nat) (b : PatroBody) (v : PatrocinadorView),
      (putPatrocinadorServer db pid b).resp = .ok k v ∨
        (putPatrocinadorLocal db pid b).resp = .ok k v ∨
        (postPatrocinadorServer db b).resp = .ok k v ∨
        (postPatrocinadorLocal db b).resp = .ok k v →
      (∀ x ∈ v.ciudades_nombres, x.isSome = true) ∧
      (∀ x ∈ v.ciudades_ids, x.isSome = true)) := by
  have hloc : ∀ (db2 : DB) (pid okCode k : Nat) (cids : Option (List Nat))
      (v : PatrocinadorView),
      (finishPatrocinadorLocal db2 pid okCode cids).resp = .ok k v →
      (∀ x ∈ v.ciudades_nombres, x.isSome = true) ∧
      (∀ x ∈ v.ciudades_ids, x.isSome = true) := by
    intro db2 pid okCode k cids v h
    rcases finishPatrocinadorLocal_ok db2 pid okCode k cids v h with ⟨_, hcase⟩
    rcases hcase with ⟨_, hnoms, hids, _, _⟩ | ⟨cs, db3, _, _, _, hview⟩
    · rw [hnoms, hids]
      exact ⟨by intro x hx; simp at hx, by intro x hx; simp at hx⟩
    · exact mkViewById_no_none db3 pid v hview
  have htx : ∀ (dbOrig db2 : DB) (pid okCode k : Nat) (cids : List Nat)
      (v : PatrocinadorView),
      (finishPatrocinadorTx dbOrig db2 pid okCode cids).resp = .ok k v →
      (∀ x ∈ v.ciudades_nombres, x.isSome = true) ∧
      (∀ x ∈ v.ciudades_ids, x.isSome = true) := by
    intro dbOrig db2 pid okCode k cids v h
    rcases finishPatrocinadorTx_ok dbOrig db2 pid okCode cids k v h with ⟨db3, _, _, hview, _⟩
    exact mkViewById_no_none db3 pid v hview
  refine ⟨?_, ?_, ?_, ?_⟩
  · intro db p
    refine ⟨(mkView_no_none db p).1, (mkView_no_none db p).2, ?_⟩
    intro hfil
    exact mkView_empty_of_no_assoc db p hfil
  · intro db v hv
    rcases List.mem_map.mp hv with ⟨p, _, rfl⟩
    exact mkView_no_none db p
  · intro db q v hv
    match q with
    | none => simp [buscarPatrocinadores] at hv
    | some s =>
      by_cases hs : s = ""
      · simp [buscarPatrocinadores, hs] at hv
      · simp only [buscarPatrocinadores, hs, if_neg] at hv
        rcases List.mem_map.mp hv with ⟨p, _, rfl⟩
        exact mkView_no_none db p
  · intro db pid k b v hcase
    rcases hcase with h | h | h | h
    · rcases putPatrocinadorServer_split db pid b with ⟨_, heq⟩ | ⟨_, hko, _⟩
      · rw [heq] at h
        exact htx _ _ _ _ _ _ _ h
      · rw [h] at hko
        simp [Resp.isOk] at hko
    · rcases putPatrocinadorLocal_split db pid b with ⟨_, heq⟩ | ⟨_, hko, _⟩
      · rw [heq] at h
        exact hloc _ _ _ _ _ _ h
      · rw [h] at hko
        simp [Resp.isOk] at hko
    · rcases postPatrocinadorServer_split db b with heq | ⟨_, hko, _⟩
      · rw [heq] at h
        exact htx _ _ _ _ _ _ _ h
      · rw [h] at hko
        simp [Resp.isOk] at hko
    · rcases postPatrocinadorLocal_split db b with heq | ⟨_, hko, _⟩
      · rw [heq] at h
        exact hloc _ _ _ _ _ _ h
      · rw [h] at hko
        simp [Resp.isOk] at hko

/-- Claim C6 witness: sponsor 8 has no associations; its aggregated view
has empty (not null-containing) city lists. -/
theorem claimC6_witness :
    (mkPatrocinadorView dbW ⟨8, "Beta", "b@b.com", none⟩).ciudades_nombres = [] ∧
    (mkPatrocinadorView dbW ⟨8, "Beta", "b@b.com", none⟩).ciudades_ids = [] :=
  (claimC6_no_null_lists.1 dbW ⟨8, "Beta", "b@b.com", none⟩).2.2 (by decide)

/-- Claim C7: the broadcast loop attempts one transport write per
subscriber, in list order, regardless of any write failing: a subscriber
whose transport fails (Node res.write reports failure through its return
value and asynchronous error events, which the loop ignores) does not
prevent the write to any other subscriber, and the loop completes without
surfacing an error to the publishing handler. -/
theorem claimC7_broadcast_isolation (pre post : List SSEClient) (c : SSEClient) (msg : String)
    (hc : c.writeOk = false) :
    sendUpdateToAllClients (pre ++ c :: post) msg
      = (pre ++ c :: post).map (fun cl => (cl.id, cl.writeOk)) ∧
    (∀ d ∈ post, (d.id, d.writeOk) ∈ sendUpdateToAllClients (pre ++ c :: post) msg) ∧
    (c.id, false) ∈ sendUpdateToAllClients (pre ++ c :: post) msg := by
  have hmap : sendUpdateToAllClients (pre ++ c :: post) msg
      = (pre ++ c :: post).map (fun cl => (cl.id, cl.writeOk)) := by
    show (pre ++ c :: post).foldl (fun a cl => a ++ [(cl.id, cl.writeOk)]) []
      = (pre ++ c :: post).map (fun cl => (cl.id, cl.writeOk))
    rw [sendUpdate_eq_map]
    rfl
  refine ⟨hmap, ?_, ?_⟩
  · intro d hd
    rw [hmap]
    exact List.mem_map.mpr ⟨d, by simp [hd], rfl⟩
  · rw [hmap]
    exact List.mem_map.mpr ⟨c, by simp, by rw [hc]⟩

/-- Claim C7 witness: with the middle subscriber's transport failing, the
first and third still receive their writes and the broadcast completes. -/
theorem claimC7_witness :
    sendUpdateToAllClients [⟨1, true⟩, ⟨2, false⟩, ⟨3, true⟩] "x"
      = [(1, true), (2, false), (3, true)] ∧
    ((3 : Nat), true) ∈ sendUpdateToAllClients [⟨1, true⟩, ⟨2, false⟩, ⟨3, true⟩] "x" := by
  have h := claimC7_broadcast_isolation [⟨1, true⟩] [⟨3, true⟩] ⟨2, false⟩ "x" rfl
  exact ⟨h.1, h.2.1 ⟨3, true⟩ (by decide)⟩

/-- Claim C10: restaurant create/update accepts the email field without
any format validation or uniqueness check — the response status is
entirely independent of the email value (including an absent one or one
that duplicates another row), only nombre_oficial and nombre_mostrar are
required — unlike sponsor create, which rejects any email failing its
format pattern. -/
theorem claimC10_restaurant_email_unchecked :
    (∀ (db : DB) (b : RestBody) (e : Option String),
      ((postRestaurante db { b with email := e }).resp).status
        = ((postRestaurante db b).resp).status) ∧
    (∀ (db : DB) (rid : Nat) (b : RestBody) (e : Option String),
      ((putRestaurante db rid { b with email := e }).resp).status
        = ((putRestaurante db rid b).resp).status) ∧
    (∀ (db : DB) (b : RestBody), b.ciudad_id = none →
      (((postRestaurante db b).resp).isOk = true ↔
        (b.nombre_oficial ≠ "" ∧ b.nombre_mostrar ≠ ""))) ∧
    (∀ (db : DB) (b : PatroBody), validEmail b.email = false →
      ((postPatrocinadorServer db b).resp).isOk = false) := by
  refine ⟨?_, ?_, ?_, ?_⟩
  · intro db b e
    by_cases h1 : b.nombre_oficial = "" ∨ b.nombre_mostrar = ""
    · simp [postRestaurante, h1]
    · cases hcid : b.ciudad_id with
      | none => simp [postRestaurante, h1, hcid, insertRestaurante, Resp.status]
      | some cv =>
        by_cases h2 : cityExists db cv = true
        · simp [postRestaurante, h1, hcid, h2, insertRestaurante, Resp.status]
        · simp [postRestaurante, h1, hcid, h2, Resp.status]
  · intro db rid b e
    by_cases h1 : b.nombre_oficial = "" ∨ b.nombre_mostrar = ""
    · simp [putRestaurante, h1]
    · by_cases h2 : restExists db rid = false
      · simp [putRestaurante, h1, h2]
      · have hex : restExists db rid = true := by simpa using h2
        rcases exists_find?_of_any (updateRestRow db rid b).restaurantes
            (fun r => r.id == rid)
            (by rw [show (updateRestRow db rid b).restaurantes.any (fun r => r.id == rid)
                  = restExists (updateRestRow db rid b) rid from rfl, restExists_update]
                exact hex) with ⟨r1, hr1, _⟩
        rcases exists_find?_of_any (updateRestRow db rid { b with email := e }).restaurantes
            (fun r => r.id == rid)
            (by rw [show (updateRestRow db rid { b with email := e }).restaurantes.any
                    (fun r => r.id == rid)
                  = restExists (updateRestRow db rid { b with email := e }) rid from rfl,
                  restExists_update]
                exact hex) with ⟨r2, hr2, _⟩
        cases hcid : b.ciudad_id with
        | none =>
          rw [hcid] at hr2
          simp [putRestaurante, h1, h2, hcid, hr1, hr2, Resp.status]
        | some cv =>
          rw [hcid] at hr2
          by_cases h4 : cityExists db cv = true
          · simp [putRestaurante, h1, h2, hcid, h4, hr1, hr2, Resp.status]
          · simp [putRestaurante, h1, h2, hcid, h4, Resp.status]
  · intro db b hcid
    by_cases h1 : b.nombre_oficial = "" ∨ b.nombre_mostrar = ""
    · simp only [postRestaurante, h1, if_pos, Resp.isOk]
      constructor
      · intro hfalse
        exact absurd hfalse (by simp)
      · intro hne
        rcases h1 with h0 | h0
        · exact absurd h0 hne.1
        · exact absurd h0 hne.2
    · simp only [postRestaurante, h1, hcid, insertRestaurante, Resp.isOk, if_neg]
      constructor
      · intro _
        constructor
        · intro h0
          exact h1 (Or.inl h0)
        · intro h0
          exact h1 (Or.inr h0)
      · intro _
        rfl
  · intro db b hv
    by_cases h1 : b.nombre = "" ∨ b.email = ""
    · simp [postPatrocinadorServer, h1, Resp.isOk]
    · simp [postPatrocinadorServer, h1, hv, Resp.isOk]

/-- Claim C10 witness: a restaurant is created with a malformed email and
another with an email duplicating an existing restaurant row, while
sponsor creation rejects the malformed email. -/
theorem claimC10_witness :
    ((postRestaurante dbW ⟨"R2", "R2", none, some "zzz", none⟩).resp).isOk = true ∧
    ((postRestaurante dbW ⟨"R3", "R3", none, some "r@r.com", none⟩).resp).isOk = true ∧
    ((postPatrocinadorServer dbW ⟨"X", "zzz", none, none⟩).resp).isOk = false :=
  ⟨(claimC10_restaurant_email_unchecked.2.2.1 dbW ⟨"R2", "R2", none, some "zzz", none⟩
      rfl).mpr ⟨by decide, by decide⟩,
   (claimC10_restaurant_email_unchecked.2.2.1 dbW ⟨"R3", "R3", none, some "r@r.com", none⟩
      rfl).mpr ⟨by decide, by decide⟩,
   claimC10_restaurant_email_unchecked.2.2.2 dbW ⟨"X", "zzz", none, none⟩ (by decide)⟩
